import Mathlib

/-!
# Virtual pet simulation (`src/src/App.js`)

A shallow embedding of the simulation core of the `App` component: the stat
store, the decay and random-event callbacks, the evolution effect, the
secret-sequence recorder and the three interaction handlers.

Modelling conventions.

* React state variables and refs are fields of one `State` record.  Stat
  values are integers.
* `Date.now()` is the field `now` (milliseconds); time passes only through
  `advance`.
* A one-shot timer created by `setTimeout` is the deadline stored in an
  `Option Nat` slot (`none`: nothing pending).  `clearTimeout` empties the
  slot.  Timers fire on time: `advance` runs every callback whose deadline
  has been reached before anything else happens at the new time.
* The two `setInterval` callbacks are events supplied by the environment
  (`Event.decayTick`, `Event.rewardTick`), effective while the interval is
  registered.
* Every call of `setStats` produces a fresh object, so the evolution effect
  (dependencies `[stats, showWelcome]`) re-runs after each handler that
  calls it: first the clean-up returned by its previous run, then its body.
  State updates made inside one handler are batched, so the effect runs once,
  on the final stats.
* The values read from `localStorage` at mount are parameters of `mount`, and
  `JSON.parse` is its parameter `jsonParse`; an exception is the error result.
  The effects writing to `localStorage` produce no value read back by the
  mounted component and are left out.
-/

namespace PetApp

set_option maxRecDepth 100000

/-! ## Constants and data -/

/-- The `stats` object. -/
structure Stats where
  hunger : Int
  energy : Int
  happiness : Int
  evolved : Bool
  avatar : String
deriving DecidableEq, Repr

def DEFAULT_STATS : Stats :=
  { hunger := 100, energy := 100, happiness := 100, evolved := false, avatar := "dog" }

def STAT_DECREASE_INTERVAL : Nat := 10000
def STAT_DECREASE_AMOUNT : Int := 4
def STAT_MAX : Int := 100
def STAT_MIN : Int := 0
def EVOLUTION_TIME : Nat := 60000
def RANDOM_EVENT_INTERVAL : Nat := 30000
def EASTER_EGG_WINDOW : Nat := 60000

/-- The function `clamp`: `Math.max(STAT_MIN, Math.min(STAT_MAX, val))`. -/
def clamp (val : Int) : Int := max STAT_MIN (min STAT_MAX val)

/-- The three keys a random event can name in its `stat` field. -/
inductive StatKey where
  | hunger
  | energy
  | happiness
deriving DecidableEq, Repr

/-- One entry of the `randomEvents` table. -/
structure RandomEvent where
  msg : String
  stat : StatKey
  delta : Int
deriving DecidableEq, Repr

def randomEvents : List RandomEvent :=
  [ { msg := "Your pet found a toy!", stat := .happiness, delta := 5 },
    { msg := "Your pet fell asleep for a bit.", stat := .energy, delta := 5 },
    { msg := "Your pet is looking for attention.", stat := .happiness, delta := 5 },
    { msg := "Your pet found a snack!", stat := .hunger, delta := 5 },
    { msg := "Your pet took a quick nap.", stat := .energy, delta := 3 } ]

/-- The read `prev[event.stat]`. -/
def Stats.getStat (st : Stats) : StatKey → Int
  | .hunger => st.hunger
  | .energy => st.energy
  | .happiness => st.happiness

/-- The update `{ ...prev, [event.stat]: v }`. -/
def Stats.setStat (st : Stats) (k : StatKey) (v : Int) : Stats :=
  match k with
  | .hunger => { st with hunger := v }
  | .energy => { st with energy := v }
  | .happiness => { st with happiness := v }

/-- The `toast` state object `{ show, msg }`. -/
structure Toast where
  shown : Bool
  msg : String
deriving DecidableEq, Repr

/-- An element `{ action, time }` of `easterEggSeq.current`. -/
structure EggEntry where
  action : String
  time : Nat
deriving DecidableEq, Repr

/-- The state variables and refs of `App`, the clock, and the timers that are
pending. -/
structure State where
  petName : String
  avatar : String
  showWelcome : Bool
  stats : Stats
  petAnim : String
  toast : Toast
  showEvolve : Bool
  showEasterEgg : Bool
  showConfetti : Bool
  showInfo : Bool
  /-- Whether the decay interval held by `intervalRef` is registered. -/
  intervalRef : Bool
  /-- Whether the random-event interval held by `randomEventRef` is registered. -/
  randomEventRef : Bool
  /-- Deadline of the pending timeout held by `evolutionTimer`. -/
  evolutionTimer : Option Nat
  evolutionEligible : Bool
  evolutionStart : Option Nat
  easterEggSeq : List EggEntry
  /-- Deadline of the window timeout; `none` is the value `null` of the ref. -/
  easterEggTimer : Option Nat
  /-- The value of `Date.now()`. -/
  now : Nat
  /-- Whether the last run of the evolution effect returned its clean-up. -/
  evolutionCleanup : Bool
  /-- Deadlines of the pending `setPetAnim("")` timeouts. -/
  animTimers : List Nat
  /-- Deadlines of the pending toast-hiding timeouts. -/
  toastTimers : List Nat
  /-- Deadlines of the pending `setShowConfetti(false)` timeouts. -/
  confettiTimers : List Nat
deriving DecidableEq, Repr

/-! ## Strings -/

/-- White space as removed by `String.prototype.trim`. -/
def isTrimSpace (c : Char) : Bool :=
  let n := c.toNat
  n == 9 || n == 10 || n == 11 || n == 12 || n == 13 || n == 32 || n == 160
    || n == 5760 || (8192 ≤ n && n ≤ 8202) || n == 8232 || n == 8233
    || n == 8239 || n == 8287 || n == 12288 || n == 65279

/-- Truthiness of `petName.trim()`: some character is not white space. -/
def trimTruthy (v : String) : Bool := v.data.any (fun c => !isTrimSpace c)

/-- The call `arr.join(",")` on an array of strings. -/
def joinComma : List String → String
  | [] => ""
  | [a] => a
  | a :: b :: rest => a ++ "," ++ joinComma (b :: rest)

/-- The call `s.endsWith(pat)`. -/
def endsWith (s pat : String) : Bool := pat.data.isSuffixOf s.data

/-- The literal tested by `recordEasterEgg`. -/
def SECRET_PATTERN : String := "feed,feed,feed,play,sleep"

/-! ## The evolution effect -/

/-- The test `allHigh` of the evolution effect. -/
def allHigh (st : Stats) : Bool :=
  decide (st.hunger > 80) && decide (st.energy > 80) && decide (st.happiness > 80)

/-- The clean-up `() => clearTimeout(evolutionTimer.current)`, run when the
previous run of the effect returned it. -/
def evolutionEffectCleanup (s : State) : State :=
  if s.evolutionCleanup then { s with evolutionTimer := none } else s

/-- The body of the evolution effect. -/
def evolutionEffectBody (s : State) : State :=
  if s.stats.evolved || s.showWelcome then { s with evolutionCleanup := false }
  else
    let s1 :=
      if allHigh s.stats then
        if !s.evolutionEligible then
          { s with
            evolutionEligible := true
            evolutionStart := some s.now
            evolutionTimer := some (s.now + EVOLUTION_TIME) }
        else s
      else
        { s with
          evolutionEligible := false
          evolutionStart := none
          evolutionTimer := none }
    { s1 with evolutionCleanup := true }

/-- A re-run of the evolution effect after a change of `stats` or
`showWelcome`: the previous clean-up, then the body. -/
def evolutionEffect (s : State) : State :=
  evolutionEffectBody (evolutionEffectCleanup s)

/-- A re-run of the decay and random-event effects (dependency
`showWelcome`): the intervals are cleared, and registered again unless
`showWelcome` holds. -/
def intervalEffects (s : State) : State :=
  { s with intervalRef := !s.showWelcome, randomEventRef := !s.showWelcome }

/-- The effects with dependency `showWelcome` re-run only when its value has
changed from `old`. -/
def welcomeEffects (old : Bool) (s : State) : State :=
  if old != s.showWelcome then intervalEffects s else s

/-- The callback of the evolution timeout, followed by the effect re-run its
`setStats` causes.  The timeout has fired, so the slot is empty. -/
def evolutionFire (s : State) : State :=
  evolutionEffect
    { s with
      stats := { s.stats with evolved := true }
      showEvolve := true
      evolutionTimer := none }

/-! ## Notifications -/

/-- The function `triggerAnim`. -/
def triggerAnim (type : String) (s : State) : State :=
  { s with petAnim := type, animTimers := s.animTimers ++ [s.now + 700] }

/-- The function `showToast`. -/
def showToast (msg : String) (s : State) : State :=
  { s with toast := { shown := true, msg := msg }, toastTimers := s.toastTimers ++ [s.now + 1800] }

/-! ## The secret sequence -/

/-- The updater passed to `setStats` on a match. -/
def easterEggBonus (st : Stats) : Stats :=
  { st with
    hunger := clamp (st.hunger + 10)
    energy := clamp (st.energy + 10)
    happiness := clamp (st.happiness + 10) }

/-- The first half of `recordEasterEgg`: open a window when none is open,
then push the entry. -/
def easterEggPush (action : String) (s : State) : State :=
  let s1 :=
    if s.easterEggTimer.isNone then
      { s with easterEggSeq := [], easterEggTimer := some (s.now + EASTER_EGG_WINDOW) }
    else s
  { s1 with easterEggSeq := s1.easterEggSeq ++ [{ action := action, time := s.now }] }

/-- The test of `recordEasterEgg` on a log. -/
def easterEggMatch (log : List EggEntry) : Bool :=
  endsWith (joinComma (log.map (fun e => e.action))) SECRET_PATTERN

/-- The function `recordEasterEgg` (without the effect re-run, which the
calling handler causes once). -/
def recordEasterEgg (action : String) (s : State) : State :=
  let s2 := easterEggPush action s
  if easterEggMatch s2.easterEggSeq then
    { s2 with
      showEasterEgg := true
      showConfetti := true
      stats := easterEggBonus s2.stats
      confettiTimers := s2.confettiTimers ++ [s.now + 3500]
      easterEggSeq := []
      easterEggTimer := none }
  else s2

/-! ## Callbacks and handlers -/

/-- The updater of the decay interval. -/
def decayStats (st : Stats) : Stats :=
  { st with
    hunger := clamp (st.hunger - STAT_DECREASE_AMOUNT)
    energy := clamp (st.energy - STAT_DECREASE_AMOUNT)
    happiness := clamp (st.happiness - STAT_DECREASE_AMOUNT) }

/-- The callback of the decay interval and the effect re-run it causes. -/
def decayTick (s : State) : State :=
  evolutionEffect { s with stats := decayStats s.stats }

/-- The updater of the random-event interval for one table entry. -/
def rewardStats (ev : RandomEvent) (st : Stats) : Stats :=
  st.setStat ev.stat (clamp (st.getStat ev.stat + ev.delta))

/-- The callback of the random-event interval for the table entry chosen by
`Math.floor(Math.random() * randomEvents.length)`. -/
def rewardTick (i : Fin randomEvents.length) (s : State) : State :=
  let ev := randomEvents.get i
  evolutionEffect (showToast ev.msg { s with stats := rewardStats ev s.stats })

def handleFeed (s : State) : State :=
  if s.stats.hunger ≥ STAT_MAX then s
  else
    let s1 := { s with stats := { s.stats with hunger := clamp (s.stats.hunger + 18) } }
    evolutionEffect
      (recordEasterEgg "feed" (showToast "Your pet loved the food!" (triggerAnim "bounce" s1)))

def handleSleep (s : State) : State :=
  if s.stats.energy ≥ STAT_MAX then s
  else
    let s1 := { s with stats := { s.stats with energy := clamp (s.stats.energy + 18) } }
    evolutionEffect
      (recordEasterEgg "sleep" (showToast "Your pet had a nice nap!" (triggerAnim "sleep" s1)))

def handlePlay (s : State) : State :=
  if s.stats.happiness ≥ STAT_MAX then s
  else
    let s1 := { s with stats := { s.stats with happiness := clamp (s.stats.happiness + 18) } }
    evolutionEffect
      (recordEasterEgg "play" (showToast "Your pet had fun playing!" (triggerAnim "wiggle" s1)))

def handleNameSubmit (s : State) : State :=
  if trimTruthy s.petName then
    evolutionEffect
      (welcomeEffects s.showWelcome
        { s with showWelcome := false, stats := { s.stats with avatar := s.avatar } })
  else s

def handleAvatarSelect (key : String) (s : State) : State :=
  { s with avatar := key }

/-- The settings button: `setShowWelcome(true)`.  Setting the value it
already has causes no render. -/
def openSettings (s : State) : State :=
  if s.showWelcome then s
  else evolutionEffect (welcomeEffects s.showWelcome { s with showWelcome := true })

/-! ## Time -/

/-- The pending `setPetAnim("")` timeouts that are due run. -/
def animDue (s : State) : State :=
  if s.animTimers.any (fun d => decide (d ≤ s.now)) then
    { s with petAnim := "", animTimers := s.animTimers.filter (fun d => decide (s.now < d)) }
  else s

/-- The pending toast-hiding timeouts that are due run. -/
def toastDue (s : State) : State :=
  if s.toastTimers.any (fun d => decide (d ≤ s.now)) then
    { s with
      toast := { shown := false, msg := "" }
      toastTimers := s.toastTimers.filter (fun d => decide (s.now < d)) }
  else s

/-- The pending `setShowConfetti(false)` timeouts that are due run. -/
def confettiDue (s : State) : State :=
  if s.confettiTimers.any (fun d => decide (d ≤ s.now)) then
    { s with
      showConfetti := false
      confettiTimers := s.confettiTimers.filter (fun d => decide (s.now < d)) }
  else s

/-- The window timeout of `recordEasterEgg` runs when it is due. -/
def easterEggDue (s : State) : State :=
  match s.easterEggTimer with
  | some d => if d ≤ s.now then { s with easterEggSeq := [], easterEggTimer := none } else s
  | none => s

/-- The evolution timeout runs when it is due. -/
def evolutionDue (s : State) : State :=
  match s.evolutionTimer with
  | some d => if d ≤ s.now then evolutionFire s else s
  | none => s

/-- Run the callbacks of the one-shot timers whose deadline has been
reached. -/
def fireDue (s : State) : State :=
  evolutionDue (easterEggDue (confettiDue (toastDue (animDue s))))

/-- Let `dt` milliseconds pass. -/
def advance (dt : Nat) (s : State) : State :=
  fireDue { s with now := s.now + dt }

/-! ## Runs -/

/-- What can happen to the mounted component. -/
inductive Event where
  | advance (dt : Nat)
  | decayTick
  | rewardTick (i : Fin randomEvents.length)
  | feed
  | sleep
  | play
  | inputName (v : String)
  | nameSubmit
  | avatarSelect (key : String)
  | openSettings
  | closeEvolve
  | closeEasterEgg
  | openInfo
  | closeInfo
deriving DecidableEq, Repr

def step (s : State) : Event → State
  | .advance dt => advance dt s
  | .decayTick => if s.intervalRef then decayTick s else s
  | .rewardTick i => if s.randomEventRef then rewardTick i s else s
  | .feed => handleFeed s
  | .sleep => handleSleep s
  | .play => handlePlay s
  | .inputName v => { s with petName := v }
  | .nameSubmit => handleNameSubmit s
  | .avatarSelect key => handleAvatarSelect key s
  | .openSettings => openSettings s
  | .closeEvolve => { s with showEvolve := false }
  | .closeEasterEgg => { s with showEasterEgg := false }
  | .openInfo => { s with showInfo := true }
  | .closeInfo => { s with showInfo := false }

def run (s : State) (evs : List Event) : State := evs.foldl step s

/-- The values of `useState` and `useRef` at the first render. -/
def initialState (now : Nat) : State :=
  { petName := "", avatar := "dog", showWelcome := false, stats := DEFAULT_STATS,
    petAnim := "", toast := { shown := false, msg := "" },
    showEvolve := false, showEasterEgg := false, showConfetti := false, showInfo := false,
    intervalRef := false, randomEventRef := false,
    evolutionTimer := none, evolutionEligible := false, evolutionStart := none,
    easterEggSeq := [], easterEggTimer := none,
    now := now, evolutionCleanup := false,
    animTimers := [], toastTimers := [], confettiTimers := [] }

/-- Truthiness of a value returned by `localStorage.getItem`. -/
def truthy : Option String → Bool
  | some v => v != ""
  | none => false

/-- The load effect reading `petStats`: nothing when the item is absent or
empty, else the result of `jsonParse`, which is `JSON.parse` restricted to
stats objects; an exception thrown by it is the error result. -/
def loadStats (jsonParse : String → Except String Stats) :
    Option String → Except String (Option Stats)
  | some v => if v != "" then (jsonParse v).map some else .ok none
  | none => .ok none

/-- The state updates queued by the load effect, applied. -/
def applyLoaded (savedName : Option String) (st : Option Stats) (savedAvatar : Option String)
    (s : State) : State :=
  let s1 :=
    if truthy savedName then { s with petName := savedName.getD "" }
    else { s with showWelcome := true }
  let s2 :=
    match st with
    | some v => { s1 with stats := v }
    | none => s1
  if truthy savedAvatar then { s2 with avatar := savedAvatar.getD "" } else s2

/-- The effects after the render of the loaded values: those whose
dependencies changed with respect to the first render `old`. -/
def loadedEffects (old : State) (statsSet : Bool) (s : State) : State :=
  let s4 := welcomeEffects old.showWelcome s
  if statsSet || old.showWelcome != s4.showWelcome then evolutionEffect s4 else s4

/-- Mounting the component: the first render, the effects after it (the load
effect queues its updates; the interval and evolution effects run on the
initial values), then the render of the loaded values and the effects whose
dependencies changed. -/
def mount (jsonParse : String → Except String Stats)
    (savedName savedStats savedAvatar : Option String) (now : Nat) : Except String State :=
  let s0 := evolutionEffectBody (intervalEffects (initialState now))
  match loadStats jsonParse savedStats with
  | .error e => .error e
  | .ok st => .ok (loadedEffects s0 st.isSome (applyLoaded savedName st savedAvatar s0))

/-! ## Scenarios -/

/-- The state carried by the result of `mount`; the state of the first render
when mounting threw. -/
def stateOf : Except String State → State
  | .ok s => s
  | .error _ => initialState 0

/-- A first visit at time 0: nothing is persisted. -/
def firstVisit : State := stateOf (mount (fun _ => .error "not called") none none none 0)

/-- Onboarding as "Rex", a hundred seconds of decay (a tick every ten
seconds) and random events (every thirty seconds), then feed, feed, feed and
play one second apart. -/
def ritualEvents : List Event :=
  [.inputName "Rex", .nameSubmit,
    .advance 10000, .decayTick, .advance 10000, .decayTick,
    .advance 10000, .decayTick, .rewardTick ⟨0, by decide⟩,
    .advance 10000, .decayTick, .advance 10000, .decayTick,
    .advance 10000, .decayTick, .rewardTick ⟨1, by decide⟩,
    .advance 10000, .decayTick, .advance 10000, .decayTick,
    .advance 10000, .decayTick, .rewardTick ⟨4, by decide⟩,
    .advance 10000, .decayTick,
    .advance 1000, .feed, .advance 1000, .feed, .advance 1000, .feed,
    .advance 1000, .play, .advance 1000]

/-- The state reached by `ritualEvents`, one `handleSleep` away from
completing the secret sequence. -/
def ritualState : State := run firstVisit ritualEvents

/-- The state after onboarding and the hundred seconds of decay of
`ritualEvents`, before any interaction. -/
def decayedState : State := run firstVisit (ritualEvents.take 25)

/-- The state of `ritualEvents` just before the first feed. -/
def ritualStart : State := run firstVisit (ritualEvents.take 26)

/-- Onboarding and a hundred seconds of decay as in `ritualEvents`, then a
play at 101 s, which opens a window closing at 161 s, and decay and random
events up to 155 s. -/
def staleWindowEvents : List Event :=
  ritualEvents.take 25 ++
    [.advance 1000, .play,
      .advance 9000, .decayTick, .advance 10000, .decayTick, .rewardTick ⟨1, by decide⟩,
      .advance 10000, .decayTick, .advance 10000, .decayTick,
      .advance 10000, .decayTick, .rewardTick ⟨4, by decide⟩,
      .advance 5000]

/-- The state reached by `staleWindowEvents`, at 155 s. -/
def staleWindowState : State := run firstVisit staleWindowEvents

/-- Feed at 155 s, 156 s and 157 s, a decay tick at 160 s, play at 162 s
and sleep at 163 s. -/
def staleWindowRitual : List Event :=
  [.feed, .advance 1000, .feed, .advance 1000, .feed,
    .advance 3000, .decayTick, .advance 2000, .play, .advance 1000, .sleep]

/-- After the play of `ritualEvents` at 104 s: decay and random events up to
165 s, without any interaction. -/
def lateSleepGap : List Event :=
  [.advance 6000, .decayTick, .advance 10000, .decayTick, .rewardTick ⟨0, by decide⟩,
    .advance 10000, .decayTick, .advance 10000, .decayTick,
    .advance 10000, .decayTick, .rewardTick ⟨1, by decide⟩,
    .advance 10000, .decayTick, .advance 5000]

/-- The state of `ritualEvents` just after the play at 104 s. -/
def ritualPlayed : State := run firstVisit (ritualEvents.take 33)

/-- The state `lateSleepGap` leads to from `ritualPlayed`, at 165 s. -/
def lateSleepState : State := run ritualPlayed lateSleepGap

/-- Onboarding and a hundred seconds of decay as in `ritualEvents`, then, at
101 s, three feeds, two sleeps and a play, which bring all three stats above
80, and nine more seconds. -/
def pendingEvents : List Event :=
  ritualEvents.take 25 ++
    [.advance 1000, .feed, .feed, .feed, .sleep, .sleep, .play, .advance 9000]

/-- The state reached by `pendingEvents`, at 110 s, when the next decay tick
is due. -/
def pendingState : State := run firstVisit pendingEvents

/-- A first visit: onboarding as "Rex" at time 0, then 61 seconds with a
decay tick every ten seconds, a random event every thirty, and a feed, a sleep
and a play at 25 s. -/
def steadyEvents : List Event :=
  [.inputName "Rex", .nameSubmit,
    .advance 10000, .decayTick, .advance 10000, .decayTick,
    .advance 5000, .feed, .sleep, .play,
    .advance 5000, .decayTick, .rewardTick ⟨0, by decide⟩,
    .advance 10000, .decayTick, .advance 10000, .decayTick,
    .advance 10000, .decayTick, .rewardTick ⟨1, by decide⟩,
    .advance 1000]

/-- The state of `pendingEvents` at 101 s, just after the play that brought
all three stats above 80 and armed the evolution timer. -/
def armedState : State := run firstVisit (pendingEvents.take 32)

/-- From `armedState`: 61 seconds of decay ticks and random events, with a
play at 105 s and a feed, a sleep and a play at 135 s. -/
def careEvents : List Event :=
  [.advance 4000, .play, .advance 5000, .decayTick,
    .advance 10000, .decayTick, .rewardTick ⟨0, by decide⟩,
    .advance 10000, .decayTick, .advance 5000, .feed, .sleep, .play,
    .advance 5000, .decayTick, .advance 10000, .decayTick, .rewardTick ⟨1, by decide⟩,
    .advance 10000, .decayTick, .advance 2000]

/-- A stand-in for `JSON.parse` on the persisted values used below: it
returns `DEFAULT_STATS` on the serialisation of the default stats, as the save
effect writes it, and throws a `SyntaxError` on the other values used, none
of which is JSON. -/
def sampleJsonParse (v : String) : Except String Stats :=
  if v = "\x7b\"hunger\":100,\"energy\":100,\"happiness\":100,\"evolved\":false,\"avatar\":\"dog\"\x7d"
  then .ok DEFAULT_STATS
  else .error "SyntaxError"

/-! ## Vocabulary of the properties -/

/-- The three numeric stats lie in `[0, 100]`. -/
def Stats.InRange (st : Stats) : Prop :=
  (0 ≤ st.hunger ∧ st.hunger ≤ 100) ∧ (0 ≤ st.energy ∧ st.energy ≤ 100)
    ∧ (0 ≤ st.happiness ∧ st.happiness ≤ 100)

/-- The action kinds passed to `recordEasterEgg` by the three handlers. -/
def IsKind (a : String) : Prop := a = "feed" ∨ a = "sleep" ∨ a = "play"

/-- The kinds of a log, oldest first. -/
def kindsOf (log : List EggEntry) : List String := log.map (fun e => e.action)

/-- The pattern as a list of kinds. -/
def SECRET_KINDS : List String := ["feed", "feed", "feed", "play", "sleep"]

/-- The suffix test on the list of kinds, as the specification words it: the
log has at least five events and its last five kinds are exactly `feed`,
`feed`, `feed`, `play`, `sleep`. -/
def lastFiveMatch (log : List EggEntry) : Bool :=
  decide (5 ≤ log.length) && ((kindsOf log).drop (log.length - 5) == SECRET_KINDS)

/-- The interaction increment as the specification words it, for
`handleFeed`: `s'` is the state after the handler ran on `s`. -/
def FeedIncrement (s s' : State) : Prop :=
  s'.stats.hunger = min 100 (s.stats.hunger + 18)
    ∧ s'.stats.energy = s.stats.energy ∧ s'.stats.happiness = s.stats.happiness
    ∧ s'.stats.evolved = s.stats.evolved ∧ s'.stats.avatar = s.stats.avatar
    ∧ s'.avatar = s.avatar
    ∧ s'.petAnim = "bounce" ∧ s'.toast.shown = true
    ∧ s'.easterEggSeq = s.easterEggSeq ++ [{ action := "feed", time := s.now }]

/-- The interaction increment as the specification words it, for
`handleSleep`. -/
def SleepIncrement (s s' : State) : Prop :=
  s'.stats.energy = min 100 (s.stats.energy + 18)
    ∧ s'.stats.hunger = s.stats.hunger ∧ s'.stats.happiness = s.stats.happiness
    ∧ s'.stats.evolved = s.stats.evolved ∧ s'.stats.avatar = s.stats.avatar
    ∧ s'.avatar = s.avatar
    ∧ s'.petAnim = "sleep" ∧ s'.toast.shown = true
    ∧ s'.easterEggSeq = s.easterEggSeq ++ [{ action := "sleep", time := s.now }]

/-- The interaction increment as the specification words it, for
`handlePlay`. -/
def PlayIncrement (s s' : State) : Prop :=
  s'.stats.happiness = min 100 (s.stats.happiness + 18)
    ∧ s'.stats.hunger = s.stats.hunger ∧ s'.stats.energy = s.stats.energy
    ∧ s'.stats.evolved = s.stats.evolved ∧ s'.stats.avatar = s.stats.avatar
    ∧ s'.avatar = s.avatar
    ∧ s'.petAnim = "wiggle" ∧ s'.toast.shown = true
    ∧ s'.easterEggSeq = s.easterEggSeq ++ [{ action := "play", time := s.now }]

/-- The events that are clicks on the three interaction buttons. -/
def Event.isAction : Event → Bool
  | .feed => true
  | .sleep => true
  | .play => true
  | _ => false

/-- A state the mounted component can be in: the result of mounting followed
by any events. -/
def Reachable (s : State) : Prop :=
  ∃ (jsonParse : String → Except String Stats) (savedName savedStats savedAvatar : Option String)
    (t : Nat) (s0 : State) (evs : List Event),
    mount jsonParse savedName savedStats savedAvatar t = .ok s0 ∧ s = run s0 evs

/-- The window invariant of the secret-sequence recorder: without a pending
window timer the log is empty; with one, the deadline lies ahead, the first
entry of the log is the event that opened the window (the deadline is its
time plus `EASTER_EGG_WINDOW`), and every entry was recorded at or after it,
not later than now, with one of the three kinds. -/
def EggInv (s : State) : Prop :=
  (s.easterEggTimer = none → s.easterEggSeq = [])
    ∧ ∀ d, s.easterEggTimer = some d →
        s.now < d
          ∧ ∃ e0 rest, s.easterEggSeq = e0 :: rest ∧ d = e0.time + EASTER_EGG_WINDOW
            ∧ ∀ e ∈ s.easterEggSeq, e0.time ≤ e.time ∧ e.time ≤ s.now ∧ IsKind e.action

/-- Either a window is open whose deadline is at most `T`, or the kinds of
the log form a suffix of `M`. -/
def StaleOrShort (T : Nat) (M : List String) (s : State) : Prop :=
  (∃ d, s.easterEggTimer = some d ∧ s.now < d ∧ d ≤ T) ∨ kindsOf s.easterEggSeq <:+ M

/-- What the evolution effect reads and writes, apart from the clock. -/
def evoCore (s : State) : Stats × Bool × Bool × Option Nat × Option Nat × Bool :=
  (s.stats, s.showWelcome, s.evolutionEligible, s.evolutionTimer, s.evolutionStart,
    s.evolutionCleanup)

/-- The tracker state `Ineligible` of a running simulation: onboarding is
complete, the pet has not evolved, it is not marked eligible and no evolution
timer is pending. -/
def Ineligible (s : State) : Prop :=
  s.showWelcome = false ∧ s.stats.evolved = false ∧ s.evolutionEligible = false
    ∧ s.evolutionTimer = none

/-- The tracker is not eligible and no evolution timer is pending, in a
simulation that has not evolved; onboarding may be showing or not. -/
def Unarmed (s : State) : Prop :=
  s.stats.evolved = false ∧ s.evolutionEligible = false ∧ s.evolutionTimer = none

/-- The tracker state `Eligible` of a running simulation with its timer
pending: onboarding is complete, the pet has not evolved, all three stats are
above 80, it is marked eligible and the evolution timer is pending with
deadline `d`. -/
def EligiblePending (s : State) (d : Nat) : Prop :=
  s.showWelcome = false ∧ s.stats.evolved = false ∧ allHigh s.stats = true
    ∧ s.evolutionEligible = true ∧ s.evolutionTimer = some d

/-- The startup load as the specification words its outcome: it does not fail
with an error and the stats are the defaults. -/
def LoadsDefaults (jsonParse : String → Except String Stats)
    (savedName savedStats savedAvatar : Option String) (now : Nat) : Prop :=
  ∃ s, mount jsonParse savedName savedStats savedAvatar now = .ok s ∧ s.stats = DEFAULT_STATS

/-- The operations of the simulation that call `setStats`. -/
inductive SimOp where
  | decayTick
  | rewardTick (i : Fin randomEvents.length)
  | handleFeed
  | handleSleep
  | handlePlay
  | secretBonus
  | evolutionFire
  | handleNameSubmit
deriving DecidableEq, Repr

/-- The state after one operation.  `secretBonus` is the `setStats` call made
by `recordEasterEgg` on a match, with the effect re-run it causes. -/
def SimOp.apply : SimOp → State → State
  | .decayTick, s => PetApp.decayTick s
  | .rewardTick i, s => PetApp.rewardTick i s
  | .handleFeed, s => PetApp.handleFeed s
  | .handleSleep, s => PetApp.handleSleep s
  | .handlePlay, s => PetApp.handlePlay s
  | .secretBonus, s => evolutionEffect { s with stats := easterEggBonus s.stats }
  | .evolutionFire, s => PetApp.evolutionFire s
  | .handleNameSubmit, s => PetApp.handleNameSubmit s

/-! ## Basic facts -/

theorem clamp_nonneg (v : Int) : 0 ≤ clamp v := by
  simp [clamp, STAT_MIN]

theorem clamp_le (v : Int) : clamp v ≤ 100 := by
  simp [clamp, STAT_MIN, STAT_MAX]

theorem clamp_of_mem (v : Int) (h0 : 0 ≤ v) (h1 : v ≤ 100) : clamp v = v := by
  simp [clamp, STAT_MIN, STAT_MAX, h0, h1]

theorem evolutionEffectCleanup_stats (s : State) : (evolutionEffectCleanup s).stats = s.stats := by
  unfold evolutionEffectCleanup
  split <;> rfl

theorem evolutionEffectBody_stats (s : State) : (evolutionEffectBody s).stats = s.stats := by
  unfold evolutionEffectBody
  split
  · rfl
  · dsimp only
    split
    · split <;> rfl
    · rfl

theorem evolutionEffect_stats (s : State) : (evolutionEffect s).stats = s.stats := by
  rw [evolutionEffect, evolutionEffectBody_stats, evolutionEffectCleanup_stats]

theorem easterEggPush_stats (a : String) (s : State) : (easterEggPush a s).stats = s.stats := by
  unfold easterEggPush
  dsimp only
  split <;> rfl

theorem recordEasterEgg_stats (a : String) (s : State) :
    (recordEasterEgg a s).stats = s.stats ∨ (recordEasterEgg a s).stats = easterEggBonus s.stats := by
  unfold recordEasterEgg
  dsimp only
  split
  · right; simp [easterEggPush_stats]
  · left; exact easterEggPush_stats a s

theorem easterEggBonus_inRange (st : Stats) : (easterEggBonus st).InRange := by
  simp [Stats.InRange, easterEggBonus, clamp_nonneg, clamp_le]

theorem decayStats_inRange (st : Stats) : (decayStats st).InRange := by
  simp [Stats.InRange, decayStats, clamp_nonneg, clamp_le]

theorem rewardStats_inRange (ev : RandomEvent) (st : Stats) (h : st.InRange) :
    (rewardStats ev st).InRange := by
  obtain ⟨h1, h2, h3⟩ := h
  unfold rewardStats Stats.setStat
  split <;> simp [Stats.InRange, clamp_nonneg, clamp_le, h1, h2, h3]

theorem showToast_stats (m : String) (s : State) : (showToast m s).stats = s.stats := rfl

theorem triggerAnim_stats (m : String) (s : State) : (triggerAnim m s).stats = s.stats := rfl

theorem recordEasterEgg_inRange (a : String) (s : State) (h : s.stats.InRange) :
    (recordEasterEgg a s).stats.InRange := by
  rcases recordEasterEgg_stats a s with h1 | h1 <;> rw [h1]
  · exact h
  · exact easterEggBonus_inRange _

theorem recordEasterEgg_evolved (a : String) (s : State) :
    (recordEasterEgg a s).stats.evolved = s.stats.evolved := by
  rcases recordEasterEgg_stats a s with h1 | h1 <;> rw [h1]
  rfl

theorem handleFeed_inRange (s : State) (h : s.stats.InRange) : (handleFeed s).stats.InRange := by
  unfold handleFeed
  split
  · exact h
  · rw [evolutionEffect_stats]
    apply recordEasterEgg_inRange
    obtain ⟨_, h2, h3⟩ := h
    simp [showToast, triggerAnim, Stats.InRange, clamp_nonneg, clamp_le, h2, h3]

theorem handleSleep_inRange (s : State) (h : s.stats.InRange) : (handleSleep s).stats.InRange := by
  unfold handleSleep
  split
  · exact h
  · rw [evolutionEffect_stats]
    apply recordEasterEgg_inRange
    obtain ⟨h1, _, h3⟩ := h
    simp [showToast, triggerAnim, Stats.InRange, clamp_nonneg, clamp_le, h1, h3]

theorem handlePlay_inRange (s : State) (h : s.stats.InRange) : (handlePlay s).stats.InRange := by
  unfold handlePlay
  split
  · exact h
  · rw [evolutionEffect_stats]
    apply recordEasterEgg_inRange
    obtain ⟨h1, h2, _⟩ := h
    simp [showToast, triggerAnim, Stats.InRange, clamp_nonneg, clamp_le, h1, h2]

theorem handleNameSubmit_numeric (s : State) :
    (handleNameSubmit s).stats.hunger = s.stats.hunger
      ∧ (handleNameSubmit s).stats.energy = s.stats.energy
      ∧ (handleNameSubmit s).stats.happiness = s.stats.happiness
      ∧ (handleNameSubmit s).stats.evolved = s.stats.evolved := by
  unfold handleNameSubmit
  split
  · rw [evolutionEffect_stats]
    unfold welcomeEffects intervalEffects
    dsimp only
    split <;> simp
  · simp

/-- Claim C3.  Stat bounds invariant: from a state whose hunger, energy and
happiness lie in `[0, 100]`, every simulation operation (decay tick, reward
tick for any table entry, `handleFeed`, `handleSleep`, `handlePlay`, the
secret-sequence bonus, the evolution timer firing, `handleNameSubmit`) leads
to a state whose three stats lie in `[0, 100]` again; and `clamp (v + d)`
lies in `[0, 100]` for all integers `v` and `d`. -/
theorem stat_bounds_invariant (s : State) (h : s.stats.InRange) :
    (∀ op : SimOp, (op.apply s).stats.InRange)
      ∧ ∀ v d : Int, 0 ≤ clamp (v + d) ∧ clamp (v + d) ≤ 100 := by
  refine ⟨fun op => ?_, fun v d => ⟨clamp_nonneg _, clamp_le _⟩⟩
  cases op with
  | decayTick =>
    simp only [SimOp.apply, decayTick, evolutionEffect_stats]
    exact decayStats_inRange _
  | rewardTick i =>
    simp only [SimOp.apply, rewardTick, evolutionEffect_stats, showToast_stats]
    exact rewardStats_inRange _ _ h
  | handleFeed => exact handleFeed_inRange s h
  | handleSleep => exact handleSleep_inRange s h
  | handlePlay => exact handlePlay_inRange s h
  | secretBonus =>
    simp only [SimOp.apply, evolutionEffect_stats]
    exact easterEggBonus_inRange _
  | evolutionFire =>
    simp only [SimOp.apply, evolutionFire, evolutionEffect_stats]
    exact h
  | handleNameSubmit =>
    obtain ⟨h1, h2, h3, _⟩ := handleNameSubmit_numeric s
    simp only [SimOp.apply, Stats.InRange, h1, h2, h3]
    exact h

/-- Witness for C3 at the state of the first render. -/
theorem stat_bounds_invariant_witness :
    (initialState 0).stats.InRange
      ∧ ((∀ op : SimOp, (op.apply (initialState 0)).stats.InRange)
        ∧ ∀ v d : Int, 0 ≤ clamp (v + d) ∧ clamp (v + d) ≤ 100) :=
  ⟨by simp [Stats.InRange, initialState, DEFAULT_STATS],
    stat_bounds_invariant (initialState 0) (by simp [Stats.InRange, initialState, DEFAULT_STATS])⟩

theorem decayTick_stats (s : State) : (decayTick s).stats = decayStats s.stats := by
  simp [decayTick, evolutionEffect_stats]

theorem decayTick_iterate_stats (N : Nat) (s : State) :
    (decayTick^[N] s).stats = decayStats^[N] s.stats := by
  induction N generalizing s with
  | zero => rfl
  | succ n ih => simp [Function.iterate_succ_apply, ih, decayTick_stats]

theorem decayStats_iterate_default (N : Nat) :
    (decayStats^[N] DEFAULT_STATS).hunger = max 0 (100 - 4 * (N : Int))
      ∧ (decayStats^[N] DEFAULT_STATS).energy = max 0 (100 - 4 * (N : Int))
      ∧ (decayStats^[N] DEFAULT_STATS).happiness = max 0 (100 - 4 * (N : Int)) := by
  induction N with
  | zero => simp [DEFAULT_STATS]
  | succ n ih =>
    obtain ⟨h1, h2, h3⟩ := ih
    rw [Function.iterate_succ_apply']
    simp only [decayStats, h1, h2, h3, clamp, STAT_MIN, STAT_MAX, STAT_DECREASE_AMOUNT]
    push_cast
    refine ⟨?_, ?_, ?_⟩ <;> omega

/-- Claim C4.  Decay closed form: from a state whose stats are
`DEFAULT_STATS`, after exactly `N` decay ticks and nothing else, hunger,
energy and happiness each equal `max 0 (100 - 4 * N)`. -/
theorem decay_closed_form (N : Nat) (s : State) (h : s.stats = DEFAULT_STATS) :
    (decayTick^[N] s).stats.hunger = max 0 (100 - 4 * (N : Int))
      ∧ (decayTick^[N] s).stats.energy = max 0 (100 - 4 * (N : Int))
      ∧ (decayTick^[N] s).stats.happiness = max 0 (100 - 4 * (N : Int)) := by
  rw [decayTick_iterate_stats, h]
  exact decayStats_iterate_default N

/-- Witness for C4: twenty-six ticks from the state of the first render. -/
theorem decay_closed_form_witness :
    (initialState 0).stats = DEFAULT_STATS
      ∧ ((decayTick^[26] (initialState 0)).stats.hunger = max 0 (100 - 4 * ((26 : Nat) : Int))
        ∧ (decayTick^[26] (initialState 0)).stats.energy = max 0 (100 - 4 * ((26 : Nat) : Int))
        ∧ (decayTick^[26] (initialState 0)).stats.happiness
            = max 0 (100 - 4 * ((26 : Nat) : Int))) :=
  ⟨rfl, decay_closed_form 26 (initialState 0) rfl⟩

/-- Claim C5.  Interaction no-op at cap: `handleFeed` returns the state
unchanged (stats, animation cue, toast, secret-sequence log and window timer
included) when hunger is 100; likewise `handleSleep` when energy is 100 and
`handlePlay` when happiness is 100. -/
theorem interaction_noop_at_cap (s : State) :
    (s.stats.hunger = 100 → handleFeed s = s)
      ∧ (s.stats.energy = 100 → handleSleep s = s)
      ∧ (s.stats.happiness = 100 → handlePlay s = s) := by
  refine ⟨fun h => ?_, fun h => ?_, fun h => ?_⟩
  · simp [handleFeed, STAT_MAX, h]
  · simp [handleSleep, STAT_MAX, h]
  · simp [handlePlay, STAT_MAX, h]

/-- Witness for C5 at the state of the first render, where all three stats
are 100. -/
theorem interaction_noop_at_cap_witness :
    (initialState 0).stats.hunger = 100 ∧ handleFeed (initialState 0) = initialState 0
      ∧ (initialState 0).stats.energy = 100 ∧ handleSleep (initialState 0) = initialState 0
      ∧ (initialState 0).stats.happiness = 100 ∧ handlePlay (initialState 0) = initialState 0 :=
  ⟨rfl, (interaction_noop_at_cap (initialState 0)).1 rfl,
    rfl, (interaction_noop_at_cap (initialState 0)).2.1 rfl,
    rfl, (interaction_noop_at_cap (initialState 0)).2.2 rfl⟩

theorem handleFeed_evolved (s : State) : (handleFeed s).stats.evolved = s.stats.evolved := by
  unfold handleFeed
  split
  · rfl
  · rw [evolutionEffect_stats, recordEasterEgg_evolved]
    rfl

theorem handleSleep_evolved (s : State) : (handleSleep s).stats.evolved = s.stats.evolved := by
  unfold handleSleep
  split
  · rfl
  · rw [evolutionEffect_stats, recordEasterEgg_evolved]
    rfl

theorem handlePlay_evolved (s : State) : (handlePlay s).stats.evolved = s.stats.evolved := by
  unfold handlePlay
  split
  · rfl
  · rw [evolutionEffect_stats, recordEasterEgg_evolved]
    rfl

theorem rewardStats_evolved (ev : RandomEvent) (st : Stats) :
    (rewardStats ev st).evolved = st.evolved := by
  unfold rewardStats Stats.setStat
  split <;> rfl

theorem evolutionEffectBody_of_evolved (s : State) (h : s.stats.evolved = true) :
    evolutionEffectBody s = { s with evolutionCleanup := false } := by
  simp [evolutionEffectBody, h]

/-- Claim C10.  Evolved is monotonic: from a state with `evolved = true`,
every simulation operation that mutates the stats (decay tick, reward tick,
`handleFeed`, `handleSleep`, `handlePlay`, the secret-sequence bonus, the
evolution timer firing, `handleNameSubmit`) leads to a state with
`evolved = true`; and with `evolved = true` the body of the evolution effect
leaves the tracker (`evolutionEligible`, `evolutionStart`) and the timer slot
as they are, so that a re-run of the effect arms no timer: afterwards the slot
holds what it held before or nothing. -/
theorem evolved_monotonic (s : State) (h : s.stats.evolved = true) :
    (∀ op : SimOp, (op.apply s).stats.evolved = true)
      ∧ ((evolutionEffectBody s).evolutionEligible = s.evolutionEligible
        ∧ (evolutionEffectBody s).evolutionStart = s.evolutionStart
        ∧ (evolutionEffectBody s).evolutionTimer = s.evolutionTimer)
      ∧ ((evolutionEffect s).evolutionEligible = s.evolutionEligible
        ∧ (evolutionEffect s).evolutionStart = s.evolutionStart
        ∧ ((evolutionEffect s).evolutionTimer = s.evolutionTimer
          ∨ (evolutionEffect s).evolutionTimer = none)) := by
  refine ⟨fun op => ?_, ?_, ?_⟩
  · cases op with
    | decayTick => simpa [SimOp.apply, decayTick, evolutionEffect_stats, decayStats] using h
    | rewardTick i =>
      simpa [SimOp.apply, rewardTick, evolutionEffect_stats, showToast_stats,
        rewardStats_evolved] using h
    | handleFeed => simpa [SimOp.apply, handleFeed_evolved] using h
    | handleSleep => simpa [SimOp.apply, handleSleep_evolved] using h
    | handlePlay => simpa [SimOp.apply, handlePlay_evolved] using h
    | secretBonus => simpa [SimOp.apply, evolutionEffect_stats, easterEggBonus] using h
    | evolutionFire => simp [SimOp.apply, evolutionFire, evolutionEffect_stats]
    | handleNameSubmit =>
      simpa [SimOp.apply, (handleNameSubmit_numeric s).2.2.2] using h
  · rw [evolutionEffectBody_of_evolved s h]
    exact ⟨rfl, rfl, rfl⟩
  · have hc : (evolutionEffectCleanup s).stats.evolved = true := by
      rw [evolutionEffectCleanup_stats]; exact h
    rw [evolutionEffect, evolutionEffectBody_of_evolved _ hc]
    unfold evolutionEffectCleanup
    split <;> simp

/-- Witness for C10 at the state of the first render with `evolved` set. -/
theorem evolved_monotonic_witness :
    ({ initialState 0 with stats := { DEFAULT_STATS with evolved := true } } : State).stats.evolved
        = true
      ∧ ∀ op : SimOp,
        (op.apply { initialState 0 with stats := { DEFAULT_STATS with evolved := true } }).stats.evolved
          = true :=
  ⟨rfl, (evolved_monotonic
    { initialState 0 with stats := { DEFAULT_STATS with evolved := true } } rfl).1⟩

theorem joinComma_concat (l : List String) (a : String) :
    (joinComma (l ++ [a])).data
      = match l with
        | [] => a.data
        | _ :: _ => (joinComma l).data ++ ',' :: a.data := by
  induction l with
  | nil => rfl
  | cons x xs ih =>
    cases xs with
    | nil => simp [joinComma]
    | cons y ys =>
      have ih2 : (joinComma (y :: (ys ++ [a]))).data
          = (joinComma (y :: ys)).data ++ ',' :: a.data := ih
      have e : joinComma (x :: y :: ys ++ [a]) = x ++ "," ++ joinComma (y :: (ys ++ [a])) := rfl
      have e2 : joinComma (x :: y :: ys) = x ++ "," ++ joinComma (y :: ys) := rfl
      rw [e]
      simp only [String.data_append, ih2, e2, List.append_assoc]

theorem feed_data : ("feed" : String).data = ['f', 'e', 'e', 'd'] := rfl
theorem play_data : ("play" : String).data = ['p', 'l', 'a', 'y'] := rfl
theorem sleep_data : ("sleep" : String).data = ['s', 'l', 'e', 'e', 'p'] := rfl

theorem joinComma_concat_of_ne_nil (l : List String) (a : String) (h : l ≠ []) :
    (joinComma (l ++ [a])).data = (joinComma l).data ++ ',' :: a.data := by
  rw [joinComma_concat]
  cases l with
  | nil => exact absurd rfl h
  | cons x xs => rfl

theorem joinComma_concat_suffix (l : List String) (a : String) :
    a.data <:+ (joinComma (l ++ [a])).data := by
  rw [joinComma_concat]
  cases l with
  | nil => exact List.suffix_refl _
  | cons x xs => exact ⟨(joinComma (x :: xs)).data ++ [','], by simp⟩

theorem suffix_peel (l : List String) (a t : String) (P : List Char)
    (ha : IsKind a) (ht : IsKind t)
    (h : (P ++ ',' :: t.data) <:+ (joinComma (l ++ [a])).data) :
    a = t ∧ P <:+ (joinComma l).data ∧ l ≠ [] := by
  rw [joinComma_concat] at h
  cases l with
  | nil =>
    exfalso
    rw [← List.reverse_prefix] at h
    rcases ha with rfl | rfl | rfl <;> rcases ht with rfl | rfl | rfl <;>
      simp [feed_data, play_data, sleep_data] at h
  | cons x xs =>
    rw [← List.reverse_prefix] at h
    rcases ha with rfl | rfl | rfl <;> rcases ht with rfl | rfl | rfl <;>
      simp [feed_data, play_data, sleep_data] at h <;>
      exact ⟨rfl, by rw [← List.reverse_prefix]; simpa using h, by simp⟩

theorem suffix_peel_last (l : List String) (a t : String) (ha : IsKind a) (ht : IsKind t)
    (h : t.data <:+ (joinComma (l ++ [a])).data) : a = t := by
  rw [joinComma_concat] at h
  rw [← List.reverse_prefix] at h
  cases l with
  | nil =>
    rcases ha with rfl | rfl | rfl <;> rcases ht with rfl | rfl | rfl <;>
      simp [feed_data, play_data, sleep_data] at h <;> rfl
  | cons x xs =>
    rcases ha with rfl | rfl | rfl <;> rcases ht with rfl | rfl | rfl <;>
      simp [feed_data, play_data, sleep_data] at h <;> rfl

theorem secret_pattern_data :
    SECRET_PATTERN.data
      = ((((("feed" : String).data ++ ',' :: ("feed" : String).data)
          ++ ',' :: ("feed" : String).data) ++ ',' :: ("play" : String).data)
          ++ ',' :: ("sleep" : String).data) := rfl

theorem endsWith_iff (s pat : String) : endsWith s pat = true ↔ pat.data <:+ s.data := by
  simp [endsWith]

theorem endsWith_join_of_suffix (pre : List String) :
    endsWith (joinComma (pre ++ SECRET_KINDS)) SECRET_PATTERN = true := by
  rw [endsWith_iff, secret_pattern_data]
  have e : pre ++ SECRET_KINDS
      = ((((pre ++ ["feed"]) ++ ["feed"]) ++ ["feed"]) ++ ["play"]) ++ ["sleep"] := by
    simp [SECRET_KINDS]
  rw [e, joinComma_concat_of_ne_nil _ _ (by simp), joinComma_concat_of_ne_nil _ _ (by simp),
    joinComma_concat_of_ne_nil _ _ (by simp), joinComma_concat_of_ne_nil _ _ (by simp)]
  obtain ⟨Y, hY⟩ := joinComma_concat_suffix pre "feed"
  rw [← hY]
  exact ⟨Y, by simp⟩

theorem eq_nil_or_snoc (l : List String) : l = [] ∨ ∃ L b, l = L ++ [b] := by
  rcases List.eq_nil_or_concat l with h | ⟨L, b, h⟩
  · exact Or.inl h
  · exact Or.inr ⟨L, b, by rw [h, List.concat_eq_append]⟩

theorem suffix_of_endsWith_join (kinds : List String) (hk : ∀ a ∈ kinds, IsKind a)
    (h : endsWith (joinComma kinds) SECRET_PATTERN = true) :
    ∃ pre, kinds = pre ++ SECRET_KINDS := by
  rw [endsWith_iff, secret_pattern_data] at h
  have kf : IsKind "feed" := Or.inl rfl
  have kp : IsKind "play" := Or.inr (Or.inr rfl)
  have ks : IsKind "sleep" := Or.inr (Or.inl rfl)
  rcases eq_nil_or_snoc kinds with rfl | ⟨l4, a5, rfl⟩
  · simp [joinComma, feed_data, play_data, sleep_data] at h
  obtain ⟨rfl, h4, n4⟩ := suffix_peel l4 a5 "sleep" _ (hk a5 (by simp)) ks h
  rcases eq_nil_or_snoc l4 with rfl | ⟨l3, a4, rfl⟩
  · exact absurd rfl n4
  obtain ⟨rfl, h3, n3⟩ := suffix_peel l3 a4 "play" _ (hk a4 (by simp)) kp h4
  rcases eq_nil_or_snoc l3 with rfl | ⟨l2, a3, rfl⟩
  · exact absurd rfl n3
  obtain ⟨rfl, h2, n2⟩ := suffix_peel l2 a3 "feed" _ (hk a3 (by simp)) kf h3
  rcases eq_nil_or_snoc l2 with rfl | ⟨l1, a2, rfl⟩
  · exact absurd rfl n2
  obtain ⟨rfl, h1, n1⟩ := suffix_peel l1 a2 "feed" _ (hk a2 (by simp)) kf h2
  rcases eq_nil_or_snoc l1 with rfl | ⟨l0, a1, rfl⟩
  · exact absurd rfl n1
  have e1 := suffix_peel_last l0 a1 "feed" (hk a1 (by simp)) kf h1
  subst e1
  exact ⟨l0, by simp [SECRET_KINDS]⟩

theorem suffix_iff_drop (kinds : List String) :
    (∃ pre, kinds = pre ++ SECRET_KINDS)
      ↔ 5 ≤ kinds.length ∧ kinds.drop (kinds.length - 5) = SECRET_KINDS := by
  constructor
  · rintro ⟨pre, rfl⟩
    have hl : SECRET_KINDS.length = 5 := rfl
    refine ⟨by simp [hl], ?_⟩
    have : (pre ++ SECRET_KINDS).length - 5 = pre.length := by simp [hl]
    rw [this, List.drop_left]
  · rintro ⟨_, h2⟩
    exact ⟨kinds.take (kinds.length - 5), by rw [← h2, List.take_append_drop]⟩

theorem easterEggMatch_eq_lastFiveMatch (log : List EggEntry)
    (hk : ∀ e ∈ log, IsKind e.action) : easterEggMatch log = lastFiveMatch log := by
  have hk2 : ∀ a ∈ kindsOf log, IsKind a := by
    intro a ha
    simp only [kindsOf, List.mem_map] at ha
    obtain ⟨e, he, rfl⟩ := ha
    exact hk e he
  have key : easterEggMatch log = true ↔ lastFiveMatch log = true := by
    have hlen : (kindsOf log).length = log.length := by simp [kindsOf]
    have h1 : easterEggMatch log = true ↔ ∃ pre, kindsOf log = pre ++ SECRET_KINDS :=
      ⟨suffix_of_endsWith_join _ hk2, fun ⟨pre, hp⟩ => by
        have := endsWith_join_of_suffix pre
        rw [← hp] at this
        exact this⟩
    rw [h1, suffix_iff_drop, hlen]
    simp [lastFiveMatch]
  cases h : lastFiveMatch log
  · cases h2 : easterEggMatch log
    · rfl
    · rw [key.mp h2] at h; exact absurd h (by simp)
  · exact key.mpr h

/-- Claim C9.  Suffix match equals list suffix: on every action log whose
kinds are drawn from `feed`, `sleep`, `play`, the test of `recordEasterEgg`
(the comma-joined kinds end with the literal `feed,feed,feed,play,sleep`)
agrees with the list test "at least five events, and the last five kinds are
feed, feed, feed, play, sleep"; so the log sleep, feed, feed, feed, play,
sleep matches and the log feed, play, sleep does not. -/
theorem suffix_match_refines_list_suffix (log : List EggEntry)
    (hk : ∀ e ∈ log, IsKind e.action) :
    easterEggMatch log = lastFiveMatch log
      ∧ easterEggMatch
          [⟨"sleep", 0⟩, ⟨"feed", 1⟩, ⟨"feed", 2⟩, ⟨"feed", 3⟩, ⟨"play", 4⟩, ⟨"sleep", 5⟩] = true
      ∧ easterEggMatch [⟨"feed", 0⟩, ⟨"play", 1⟩, ⟨"sleep", 2⟩] = false :=
  ⟨easterEggMatch_eq_lastFiveMatch log hk, by decide, by decide⟩

/-- Witness for C9 on a six-event log. -/
theorem suffix_match_refines_list_suffix_witness :
    (∀ e ∈ ([⟨"sleep", 0⟩, ⟨"feed", 1⟩, ⟨"feed", 2⟩, ⟨"feed", 3⟩, ⟨"play", 4⟩, ⟨"sleep", 5⟩] :
        List EggEntry), IsKind e.action)
      ∧ easterEggMatch
          [⟨"sleep", 0⟩, ⟨"feed", 1⟩, ⟨"feed", 2⟩, ⟨"feed", 3⟩, ⟨"play", 4⟩, ⟨"sleep", 5⟩]
        = lastFiveMatch
          [⟨"sleep", 0⟩, ⟨"feed", 1⟩, ⟨"feed", 2⟩, ⟨"feed", 3⟩, ⟨"play", 4⟩, ⟨"sleep", 5⟩] :=
  ⟨by simp [IsKind],
    (suffix_match_refines_list_suffix
      [⟨"sleep", 0⟩, ⟨"feed", 1⟩, ⟨"feed", 2⟩, ⟨"feed", 3⟩, ⟨"play", 4⟩, ⟨"sleep", 5⟩]
      (by simp [IsKind])).1⟩

theorem evolutionEffectBody_frame (s : State) :
    ∃ el st tm cl, evolutionEffectBody s
      = { s with
          evolutionEligible := el, evolutionStart := st, evolutionTimer := tm,
          evolutionCleanup := cl } := by
  unfold evolutionEffectBody
  dsimp only
  split_ifs <;> exact ⟨_, _, _, _, rfl⟩

theorem evolutionEffect_frame (s : State) :
    ∃ el st tm cl, evolutionEffect s
      = { s with
          evolutionEligible := el, evolutionStart := st, evolutionTimer := tm,
          evolutionCleanup := cl } := by
  obtain ⟨el, st, tm, cl, h⟩ := evolutionEffectBody_frame (evolutionEffectCleanup s)
  rw [evolutionEffect, h]
  unfold evolutionEffectCleanup
  split <;> exact ⟨_, _, _, _, rfl⟩

theorem secret_pattern_chars :
    SECRET_PATTERN.data
      = ['f', 'e', 'e', 'd', ',', 'f', 'e', 'e', 'd', ',', 'f', 'e', 'e', 'd', ',',
          'p', 'l', 'a', 'y', ',', 's', 'l', 'e', 'e', 'p'] := rfl

theorem kindsOf_concat (log : List EggEntry) (e : EggEntry) :
    kindsOf (log ++ [e]) = kindsOf log ++ [e.action] := by
  simp [kindsOf]

theorem easterEggMatch_concat_feed (log : List EggEntry) (t : Nat) :
    easterEggMatch (log ++ [{ action := "feed", time := t }]) = false := by
  cases h : easterEggMatch (log ++ [{ action := "feed", time := t }])
  · rfl
  · exfalso
    have h2 : endsWith (joinComma (kindsOf (log ++ [{ action := "feed", time := t }])))
        SECRET_PATTERN = true := h
    rw [kindsOf_concat, endsWith_iff, joinComma_concat, ← List.reverse_prefix,
      secret_pattern_chars] at h2
    cases hk : kindsOf log <;> rw [hk] at h2 <;> simp [feed_data] at h2

theorem easterEggMatch_concat_play (log : List EggEntry) (t : Nat) :
    easterEggMatch (log ++ [{ action := "play", time := t }]) = false := by
  cases h : easterEggMatch (log ++ [{ action := "play", time := t }])
  · rfl
  · exfalso
    have h2 : endsWith (joinComma (kindsOf (log ++ [{ action := "play", time := t }])))
        SECRET_PATTERN = true := h
    rw [kindsOf_concat, endsWith_iff, joinComma_concat, ← List.reverse_prefix,
      secret_pattern_chars] at h2
    cases hk : kindsOf log <;> rw [hk] at h2 <;> simp [play_data] at h2

theorem easterEggPush_seq (a : String) (s : State) :
    (easterEggPush a s).easterEggSeq
      = (if s.easterEggTimer.isNone then [] else s.easterEggSeq)
          ++ [{ action := a, time := s.now }] := by
  unfold easterEggPush
  dsimp only
  split <;> rfl

theorem easterEggPush_timer (a : String) (s : State) :
    (easterEggPush a s).easterEggTimer
      = some (s.easterEggTimer.getD (s.now + EASTER_EGG_WINDOW)) := by
  unfold easterEggPush
  dsimp only
  cases h : s.easterEggTimer <;> simp [h]

theorem recordEasterEgg_feed (s : State) : recordEasterEgg "feed" s = easterEggPush "feed" s := by
  unfold recordEasterEgg
  dsimp only
  rw [easterEggPush_seq, easterEggMatch_concat_feed]
  simp

theorem recordEasterEgg_play (s : State) : recordEasterEgg "play" s = easterEggPush "play" s := by
  unfold recordEasterEgg
  dsimp only
  rw [easterEggPush_seq, easterEggMatch_concat_play]
  simp

theorem evolutionEffect_avatar (s : State) : (evolutionEffect s).avatar = s.avatar := by
  obtain ⟨_, _, _, _, h⟩ := evolutionEffect_frame s
  rw [h]

theorem evolutionEffect_petAnim (s : State) : (evolutionEffect s).petAnim = s.petAnim := by
  obtain ⟨_, _, _, _, h⟩ := evolutionEffect_frame s
  rw [h]

theorem evolutionEffect_toast (s : State) : (evolutionEffect s).toast = s.toast := by
  obtain ⟨_, _, _, _, h⟩ := evolutionEffect_frame s
  rw [h]

theorem evolutionEffect_easterEggSeq (s : State) :
    (evolutionEffect s).easterEggSeq = s.easterEggSeq := by
  obtain ⟨_, _, _, _, h⟩ := evolutionEffect_frame s
  rw [h]

theorem evolutionEffect_easterEggTimer (s : State) :
    (evolutionEffect s).easterEggTimer = s.easterEggTimer := by
  obtain ⟨_, _, _, _, h⟩ := evolutionEffect_frame s
  rw [h]

theorem evolutionEffect_now (s : State) : (evolutionEffect s).now = s.now := by
  obtain ⟨_, _, _, _, h⟩ := evolutionEffect_frame s
  rw [h]

theorem evolutionEffect_showWelcome (s : State) :
    (evolutionEffect s).showWelcome = s.showWelcome := by
  obtain ⟨_, _, _, _, h⟩ := evolutionEffect_frame s
  rw [h]

theorem easterEggPush_frame (a : String) (s : State) :
    easterEggPush a s
      = { s with
          easterEggSeq := (if s.easterEggTimer.isNone then [] else s.easterEggSeq)
            ++ [{ action := a, time := s.now }]
          easterEggTimer := some (s.easterEggTimer.getD (s.now + EASTER_EGG_WINDOW)) } := by
  unfold easterEggPush
  cases h : s.easterEggTimer <;> simp [h]

theorem openLog_eq (s : State) (hwf : s.easterEggTimer = none → s.easterEggSeq = []) :
    (if s.easterEggTimer.isNone then [] else s.easterEggSeq) = s.easterEggSeq := by
  cases h : s.easterEggTimer with
  | none => simp [hwf h]
  | some d => simp

theorem clamp_add_of_nonneg (v : Int) (h : 0 ≤ v) : clamp (v + 18) = min 100 (v + 18) := by
  simp only [clamp, STAT_MIN, STAT_MAX]
  omega

theorem handleFeed_increment (s : State) (hwf : s.easterEggTimer = none → s.easterEggSeq = [])
    (h0 : 0 ≤ s.stats.hunger) (h1 : s.stats.hunger < 100) : FeedIncrement s (handleFeed s) := by
  have hlt : ¬ s.stats.hunger ≥ STAT_MAX := by simp [STAT_MAX, h1]
  unfold handleFeed
  rw [if_neg hlt]
  simp only [FeedIncrement, recordEasterEgg_feed, easterEggPush_frame, evolutionEffect_stats,
    evolutionEffect_avatar, evolutionEffect_petAnim, evolutionEffect_toast,
    evolutionEffect_easterEggSeq, showToast, triggerAnim, clamp_add_of_nonneg _ h0,
    openLog_eq s hwf]
  simp

theorem handlePlay_increment (s : State) (hwf : s.easterEggTimer = none → s.easterEggSeq = [])
    (h0 : 0 ≤ s.stats.happiness) (h1 : s.stats.happiness < 100) :
    PlayIncrement s (handlePlay s) := by
  have hlt : ¬ s.stats.happiness ≥ STAT_MAX := by simp [STAT_MAX, h1]
  unfold handlePlay
  rw [if_neg hlt]
  simp only [PlayIncrement, recordEasterEgg_play, easterEggPush_frame, evolutionEffect_stats,
    evolutionEffect_avatar, evolutionEffect_petAnim, evolutionEffect_toast,
    evolutionEffect_easterEggSeq, showToast, triggerAnim, clamp_add_of_nonneg _ h0,
    openLog_eq s hwf]
  simp

theorem recordEasterEgg_of_not_match (a : String) (s : State)
    (h : easterEggMatch (easterEggPush a s).easterEggSeq = false) :
    recordEasterEgg a s = easterEggPush a s := by
  unfold recordEasterEgg
  simp [h]

theorem recordEasterEgg_of_match (a : String) (s : State)
    (h : easterEggMatch (easterEggPush a s).easterEggSeq = true) :
    recordEasterEgg a s
      = { easterEggPush a s with
          showEasterEgg := true
          showConfetti := true
          stats := easterEggBonus (easterEggPush a s).stats
          confettiTimers := (easterEggPush a s).confettiTimers ++ [s.now + 3500]
          easterEggSeq := []
          easterEggTimer := none } := by
  unfold recordEasterEgg
  dsimp only
  rw [if_pos h]

theorem handleSleep_increment (s : State) (hwf : s.easterEggTimer = none → s.easterEggSeq = [])
    (h0 : 0 ≤ s.stats.energy) (h1 : s.stats.energy < 100)
    (hm : easterEggMatch (s.easterEggSeq ++ [{ action := "sleep", time := s.now }]) = false) :
    SleepIncrement s (handleSleep s) := by
  have hlt : ¬ s.stats.energy ≥ STAT_MAX := by simp [STAT_MAX, h1]
  unfold handleSleep
  rw [if_neg hlt]
  dsimp only
  rw [recordEasterEgg_of_not_match]
  · simp only [SleepIncrement, easterEggPush_frame, evolutionEffect_stats,
      evolutionEffect_avatar, evolutionEffect_petAnim, evolutionEffect_toast,
      evolutionEffect_easterEggSeq, showToast, triggerAnim, clamp_add_of_nonneg _ h0,
      openLog_eq s hwf]
    simp
  · simp only [easterEggPush_frame, showToast, triggerAnim, openLog_eq s hwf]
    exact hm

theorem handleSleep_bonus (s : State) (hwf : s.easterEggTimer = none → s.easterEggSeq = [])
    (h0 : 0 ≤ s.stats.energy) (h1 : s.stats.energy < 100)
    (hm : easterEggMatch (s.easterEggSeq ++ [{ action := "sleep", time := s.now }]) = true) :
    (handleSleep s).stats.energy = clamp (min 100 (s.stats.energy + 18) + 10)
      ∧ (handleSleep s).stats.hunger = clamp (s.stats.hunger + 10)
      ∧ (handleSleep s).stats.happiness = clamp (s.stats.happiness + 10)
      ∧ (handleSleep s).stats.evolved = s.stats.evolved
      ∧ (handleSleep s).stats.avatar = s.stats.avatar
      ∧ (handleSleep s).avatar = s.avatar
      ∧ (handleSleep s).petAnim = "sleep" ∧ (handleSleep s).toast.shown = true
      ∧ (handleSleep s).easterEggSeq = [] ∧ (handleSleep s).easterEggTimer = none := by
  have hlt : ¬ s.stats.energy ≥ STAT_MAX := by simp [STAT_MAX, h1]
  unfold handleSleep
  rw [if_neg hlt]
  dsimp only
  rw [recordEasterEgg_of_match]
  · simp only [evolutionEffect_stats, evolutionEffect_easterEggSeq, evolutionEffect_avatar,
      evolutionEffect_petAnim, evolutionEffect_toast,
      evolutionEffect_easterEggTimer, showToast, triggerAnim, easterEggBonus, easterEggPush_frame,
      clamp_add_of_nonneg _ h0]
    simp
  · simp only [easterEggPush_frame, showToast, triggerAnim, openLog_eq s hwf]
    exact hm

/-- Claim C6 (amended).  Interaction increment: in a state whose log is empty
when no window is open, with hunger in `[0, 100)`, `handleFeed` sets hunger to
`min 100 (hunger + 18)`, leaves energy, happiness, evolved and avatar
unchanged, sets the animation cue to `bounce` and the toast to shown, and
appends exactly one event of kind `feed` to the log; `handlePlay` does the
same for happiness with cue `wiggle` and kind `play`; `handleSleep` does the
same for energy with cue `sleep` and kind `sleep` when the log with the new
event appended does not end with feed, feed, feed, play, sleep, and when it
does, the +10 bonus is applied on top to all three stats and the log and the
window timer are cleared, while evolved and avatar are unchanged, the cue is
`sleep` and the toast is shown as before.  The three cues are pairwise
distinct. -/
theorem interaction_increment (s : State)
    (hwf : s.easterEggTimer = none → s.easterEggSeq = []) :
    (0 ≤ s.stats.hunger → s.stats.hunger < 100 → FeedIncrement s (handleFeed s))
      ∧ (0 ≤ s.stats.happiness → s.stats.happiness < 100 → PlayIncrement s (handlePlay s))
      ∧ (0 ≤ s.stats.energy → s.stats.energy < 100 →
          easterEggMatch (s.easterEggSeq ++ [{ action := "sleep", time := s.now }]) = false →
          SleepIncrement s (handleSleep s))
      ∧ (0 ≤ s.stats.energy → s.stats.energy < 100 →
          easterEggMatch (s.easterEggSeq ++ [{ action := "sleep", time := s.now }]) = true →
          (handleSleep s).stats.energy = clamp (min 100 (s.stats.energy + 18) + 10)
            ∧ (handleSleep s).stats.hunger = clamp (s.stats.hunger + 10)
            ∧ (handleSleep s).stats.happiness = clamp (s.stats.happiness + 10)
            ∧ (handleSleep s).stats.evolved = s.stats.evolved
            ∧ (handleSleep s).stats.avatar = s.stats.avatar
            ∧ (handleSleep s).avatar = s.avatar
            ∧ (handleSleep s).petAnim = "sleep" ∧ (handleSleep s).toast.shown = true
            ∧ (handleSleep s).easterEggSeq = [] ∧ (handleSleep s).easterEggTimer = none)
      ∧ (("bounce" : String) ≠ "sleep" ∧ ("bounce" : String) ≠ "wiggle"
          ∧ ("sleep" : String) ≠ "wiggle") :=
  ⟨handleFeed_increment s hwf, handlePlay_increment s hwf, handleSleep_increment s hwf,
    handleSleep_bonus s hwf, by decide, by decide, by decide⟩

/-- Witness for C6 (amended).  After a hundred seconds of decay the three
handlers all take effect and the log is empty; in `ritualState` the log is
feed, feed, feed, play and `handleSleep` completes the pattern. -/
theorem interaction_increment_witness :
    FeedIncrement decayedState (handleFeed decayedState)
      ∧ PlayIncrement decayedState (handlePlay decayedState)
      ∧ SleepIncrement decayedState (handleSleep decayedState)
      ∧ ((handleSleep ritualState).stats.energy
            = clamp (min 100 (ritualState.stats.energy + 18) + 10)
        ∧ (handleSleep ritualState).stats.hunger = clamp (ritualState.stats.hunger + 10)
        ∧ (handleSleep ritualState).stats.happiness = clamp (ritualState.stats.happiness + 10)
        ∧ (handleSleep ritualState).stats.evolved = ritualState.stats.evolved
        ∧ (handleSleep ritualState).stats.avatar = ritualState.stats.avatar
        ∧ (handleSleep ritualState).avatar = ritualState.avatar
        ∧ (handleSleep ritualState).petAnim = "sleep"
        ∧ (handleSleep ritualState).toast.shown = true
        ∧ (handleSleep ritualState).easterEggSeq = []
        ∧ (handleSleep ritualState).easterEggTimer = none) :=
  ⟨(interaction_increment decayedState (by decide)).1 (by decide) (by decide),
    (interaction_increment decayedState (by decide)).2.1 (by decide) (by decide),
    (interaction_increment decayedState (by decide)).2.2.1 (by decide) (by decide) (by decide),
    (interaction_increment ritualState (by decide)).2.2.2.1 (by decide) (by decide) (by decide)⟩

/-- Counterexample to C6 as stated: in the state reached by onboarding, a
hundred seconds of decay, then feed, feed, feed, play, energy is 68, yet
`handleSleep` does not set energy to `min 100 (68 + 18)` (it becomes 96), does
not leave happiness unchanged (83 becomes 93), and does not leave the log one
event longer (the log is cleared). -/
theorem interaction_increment_counterexample :
    (0 ≤ ritualState.stats.energy ∧ ritualState.stats.energy < 100)
      ∧ ¬ SleepIncrement ritualState (handleSleep ritualState)
      ∧ (handleSleep ritualState).stats.energy = 96
      ∧ ritualState.stats.happiness = 83 ∧ (handleSleep ritualState).stats.happiness = 93
      ∧ (handleSleep ritualState).easterEggSeq = [] :=
  ⟨by decide, fun h => absurd h.1 (by decide), by decide, by decide, by decide, by decide⟩

/-! ## Time and the secret-sequence window -/

theorem evolutionDue_egg (s : State) :
    (evolutionDue s).easterEggSeq = s.easterEggSeq
      ∧ (evolutionDue s).easterEggTimer = s.easterEggTimer ∧ (evolutionDue s).now = s.now := by
  unfold evolutionDue
  split
  · split
    · simp [evolutionFire, evolutionEffect_easterEggSeq, evolutionEffect_easterEggTimer,
        evolutionEffect_now]
    · exact ⟨rfl, rfl, rfl⟩
  · exact ⟨rfl, rfl, rfl⟩

theorem animDue_egg (s : State) :
    (animDue s).easterEggSeq = s.easterEggSeq
      ∧ (animDue s).easterEggTimer = s.easterEggTimer ∧ (animDue s).now = s.now := by
  unfold animDue
  split <;> exact ⟨rfl, rfl, rfl⟩

theorem toastDue_egg (s : State) :
    (toastDue s).easterEggSeq = s.easterEggSeq
      ∧ (toastDue s).easterEggTimer = s.easterEggTimer ∧ (toastDue s).now = s.now := by
  unfold toastDue
  split <;> exact ⟨rfl, rfl, rfl⟩

theorem confettiDue_egg (s : State) :
    (confettiDue s).easterEggSeq = s.easterEggSeq
      ∧ (confettiDue s).easterEggTimer = s.easterEggTimer ∧ (confettiDue s).now = s.now := by
  unfold confettiDue
  split <;> exact ⟨rfl, rfl, rfl⟩

theorem easterEggDue_now (s : State) : (easterEggDue s).now = s.now := by
  unfold easterEggDue
  split
  · split <;> rfl
  · rfl

theorem fireDue_now (s : State) : (fireDue s).now = s.now := by
  unfold fireDue
  rw [(evolutionDue_egg _).2.2, easterEggDue_now, (confettiDue_egg _).2.2, (toastDue_egg _).2.2,
    (animDue_egg _).2.2]

theorem fireDue_egg (s : State) :
    (fireDue s).easterEggSeq = (easterEggDue s).easterEggSeq
      ∧ (fireDue s).easterEggTimer = (easterEggDue s).easterEggTimer := by
  have h1 := animDue_egg s
  have h2 := toastDue_egg (animDue s)
  have h3 := confettiDue_egg (toastDue (animDue s))
  have hs : (confettiDue (toastDue (animDue s))).easterEggSeq = s.easterEggSeq := by
    rw [h3.1, h2.1, h1.1]
  have ht : (confettiDue (toastDue (animDue s))).easterEggTimer = s.easterEggTimer := by
    rw [h3.2.1, h2.2.1, h1.2.1]
  have hn : (confettiDue (toastDue (animDue s))).now = s.now := by
    rw [h3.2.2, h2.2.2, h1.2.2]
  unfold fireDue
  rw [(evolutionDue_egg _).1, (evolutionDue_egg _).2.1]
  unfold easterEggDue
  rw [ht, hn]
  cases hT : s.easterEggTimer with
  | none => exact ⟨hs, by simp [ht, hT]⟩
  | some d =>
    dsimp only
    split
    · exact ⟨rfl, rfl⟩
    · exact ⟨hs, by rw [ht, hT]⟩

theorem advance_now (dt : Nat) (s : State) : (advance dt s).now = s.now + dt := by
  unfold advance
  rw [fireDue_now]

theorem easterEggDue_open (s : State) (d : Nat) (hd : s.easterEggTimer = some d)
    (h : s.now < d) : easterEggDue s = s := by
  unfold easterEggDue
  rw [hd]
  dsimp only
  rw [if_neg (by omega)]

theorem easterEggDue_expired (s : State) (d : Nat) (hd : s.easterEggTimer = some d)
    (h : d ≤ s.now) : easterEggDue s = { s with easterEggSeq := [], easterEggTimer := none } := by
  unfold easterEggDue
  rw [hd]
  dsimp only
  rw [if_pos h]

theorem easterEggDue_none (s : State) (hd : s.easterEggTimer = none) : easterEggDue s = s := by
  unfold easterEggDue
  rw [hd]

/-- Time passing while a window stays open leaves the log and the window. -/
theorem advance_egg_open (dt : Nat) (s : State) (d : Nat) (hd : s.easterEggTimer = some d)
    (hlt : s.now + dt < d) :
    (advance dt s).easterEggSeq = s.easterEggSeq ∧ (advance dt s).easterEggTimer = some d := by
  unfold advance
  rw [(fireDue_egg _).1, (fireDue_egg _).2, easterEggDue_open { s with now := s.now + dt } d hd hlt]
  exact ⟨rfl, hd⟩

/-- Time passing beyond the deadline of the window clears the log. -/
theorem advance_egg_expired (dt : Nat) (s : State) (d : Nat) (hd : s.easterEggTimer = some d)
    (hle : d ≤ s.now + dt) :
    (advance dt s).easterEggSeq = [] ∧ (advance dt s).easterEggTimer = none := by
  unfold advance
  rw [(fireDue_egg _).1, (fireDue_egg _).2,
    easterEggDue_expired { s with now := s.now + dt } d hd hle]
  exact ⟨rfl, rfl⟩

theorem advance_egg_none (dt : Nat) (s : State) (hd : s.easterEggTimer = none) :
    (advance dt s).easterEggSeq = s.easterEggSeq ∧ (advance dt s).easterEggTimer = none := by
  unfold advance
  rw [(fireDue_egg _).1, (fireDue_egg _).2, easterEggDue_none { s with now := s.now + dt } hd]
  exact ⟨rfl, hd⟩

theorem welcomeEffects_egg (old : Bool) (s : State) :
    (welcomeEffects old s).easterEggSeq = s.easterEggSeq
      ∧ (welcomeEffects old s).easterEggTimer = s.easterEggTimer
      ∧ (welcomeEffects old s).now = s.now := by
  unfold welcomeEffects intervalEffects
  split <;> exact ⟨rfl, rfl, rfl⟩

theorem decayTick_egg (s : State) :
    (decayTick s).easterEggSeq = s.easterEggSeq
      ∧ (decayTick s).easterEggTimer = s.easterEggTimer ∧ (decayTick s).now = s.now := by
  simp [decayTick, evolutionEffect_easterEggSeq, evolutionEffect_easterEggTimer,
    evolutionEffect_now]

theorem rewardTick_egg (i : Fin randomEvents.length) (s : State) :
    (rewardTick i s).easterEggSeq = s.easterEggSeq
      ∧ (rewardTick i s).easterEggTimer = s.easterEggTimer ∧ (rewardTick i s).now = s.now := by
  simp [rewardTick, showToast, evolutionEffect_easterEggSeq, evolutionEffect_easterEggTimer,
    evolutionEffect_now]

theorem handleNameSubmit_egg (s : State) :
    (handleNameSubmit s).easterEggSeq = s.easterEggSeq
      ∧ (handleNameSubmit s).easterEggTimer = s.easterEggTimer
      ∧ (handleNameSubmit s).now = s.now := by
  unfold handleNameSubmit
  split
  · simp only [evolutionEffect_easterEggSeq, evolutionEffect_easterEggTimer, evolutionEffect_now,
      (welcomeEffects_egg _ _).1, (welcomeEffects_egg _ _).2.1, (welcomeEffects_egg _ _).2.2]
    simp
  · exact ⟨rfl, rfl, rfl⟩

theorem openSettings_egg (s : State) :
    (openSettings s).easterEggSeq = s.easterEggSeq
      ∧ (openSettings s).easterEggTimer = s.easterEggTimer ∧ (openSettings s).now = s.now := by
  unfold openSettings
  split
  · exact ⟨rfl, rfl, rfl⟩
  · simp only [evolutionEffect_easterEggSeq, evolutionEffect_easterEggTimer, evolutionEffect_now,
      (welcomeEffects_egg _ _).1, (welcomeEffects_egg _ _).2.1, (welcomeEffects_egg _ _).2.2]
    simp

theorem recordEasterEgg_now (a : String) (s : State) : (recordEasterEgg a s).now = s.now := by
  unfold recordEasterEgg
  dsimp only
  split <;> simp [easterEggPush_frame]

theorem handleFeed_now (s : State) : (handleFeed s).now = s.now := by
  unfold handleFeed
  split
  · rfl
  · simp [evolutionEffect_now, recordEasterEgg_now, showToast, triggerAnim]

theorem handleSleep_now (s : State) : (handleSleep s).now = s.now := by
  unfold handleSleep
  split
  · rfl
  · simp [evolutionEffect_now, recordEasterEgg_now, showToast, triggerAnim]

theorem handlePlay_now (s : State) : (handlePlay s).now = s.now := by
  unfold handlePlay
  split
  · rfl
  · simp [evolutionEffect_now, recordEasterEgg_now, showToast, triggerAnim]

/-- An event other than time passing and the three interactions leaves the
log, the window and the clock. -/
theorem step_static_egg (s : State) (e : Event) (hna : e.isAction = false)
    (hadv : ∀ dt, e ≠ .advance dt) :
    (step s e).easterEggSeq = s.easterEggSeq
      ∧ (step s e).easterEggTimer = s.easterEggTimer ∧ (step s e).now = s.now := by
  cases e with
  | advance dt => exact absurd rfl (hadv dt)
  | decayTick =>
    simp only [step]
    split
    · exact decayTick_egg s
    · exact ⟨rfl, rfl, rfl⟩
  | rewardTick i =>
    simp only [step]
    split
    · exact rewardTick_egg i s
    · exact ⟨rfl, rfl, rfl⟩
  | feed => simp [Event.isAction] at hna
  | sleep => simp [Event.isAction] at hna
  | play => simp [Event.isAction] at hna
  | inputName v => exact ⟨rfl, rfl, rfl⟩
  | nameSubmit => exact handleNameSubmit_egg s
  | avatarSelect key => exact ⟨rfl, rfl, rfl⟩
  | openSettings => exact openSettings_egg s
  | closeEvolve => exact ⟨rfl, rfl, rfl⟩
  | closeEasterEgg => exact ⟨rfl, rfl, rfl⟩
  | openInfo => exact ⟨rfl, rfl, rfl⟩
  | closeInfo => exact ⟨rfl, rfl, rfl⟩

theorem step_now_mono (s : State) (e : Event) : s.now ≤ (step s e).now := by
  by_cases hadv : ∃ dt, e = .advance dt
  · obtain ⟨dt, rfl⟩ := hadv
    simp [step, advance_now]
  · cases hA : e.isAction with
    | false =>
      exact le_of_eq (step_static_egg s e hA (fun dt h => hadv ⟨dt, h⟩)).2.2.symm
    | true =>
      cases e <;> simp [Event.isAction] at hA
      · exact le_of_eq (handleFeed_now s).symm
      · exact le_of_eq (handleSleep_now s).symm
      · exact le_of_eq (handlePlay_now s).symm

theorem run_cons (s : State) (e : Event) (E : List Event) :
    run s (e :: E) = run (step s e) E := rfl

theorem run_nil (s : State) : run s [] = s := rfl

theorem run_append (s : State) (E F : List Event) : run s (E ++ F) = run (run s E) F := by
  simp [run, List.foldl_append]

theorem run_now_mono (s : State) (E : List Event) : s.now ≤ (run s E).now := by
  induction E generalizing s with
  | nil => exact le_refl _
  | cons e E ih => exact le_trans (step_now_mono s e) (ih (step s e))

/-- While the window stays open, events other than the interactions leave
the log and the window. -/
theorem step_egg_open (s : State) (e : Event) (d : Nat) (hna : e.isAction = false)
    (hd : s.easterEggTimer = some d) (hlt : (step s e).now < d) :
    (step s e).easterEggSeq = s.easterEggSeq ∧ (step s e).easterEggTimer = some d := by
  by_cases hadv : ∃ dt, e = .advance dt
  · obtain ⟨dt, rfl⟩ := hadv
    simp only [step, advance_now] at hlt ⊢
    exact advance_egg_open dt s d hd hlt
  · obtain ⟨h1, h2, _⟩ := step_static_egg s e hna (fun dt h => hadv ⟨dt, h⟩)
    exact ⟨h1, by rw [h2, hd]⟩

theorem run_egg_open (s : State) (E : List Event) (d : Nat)
    (hna : ∀ e ∈ E, e.isAction = false)
    (hd : s.easterEggTimer = some d) (hlt : (run s E).now < d) :
    (run s E).easterEggSeq = s.easterEggSeq ∧ (run s E).easterEggTimer = some d := by
  induction E generalizing s with
  | nil => exact ⟨rfl, hd⟩
  | cons e E ih =>
    rw [run_cons] at hlt ⊢
    have hmono := run_now_mono (step s e) E
    obtain ⟨h1, h2⟩ := step_egg_open s e d (hna e (by simp)) hd (by omega)
    obtain ⟨h3, h4⟩ := ih (step s e) (fun e' he' => hna e' (by simp [he'])) h2 hlt
    exact ⟨by rw [h3, h1], h4⟩

theorem evolutionEffect_showEasterEgg (s : State) :
    (evolutionEffect s).showEasterEgg = s.showEasterEgg := by
  obtain ⟨_, _, _, _, h⟩ := evolutionEffect_frame s
  rw [h]

/-- What an effective `handleFeed` does to the stats, the log and the
window. -/
theorem handleFeed_effect (s : State) (h : s.stats.hunger < 100) :
    (handleFeed s).stats.hunger = clamp (s.stats.hunger + 18)
      ∧ (handleFeed s).stats.energy = s.stats.energy
      ∧ (handleFeed s).stats.happiness = s.stats.happiness
      ∧ (handleFeed s).easterEggSeq
          = (if s.easterEggTimer.isNone then [] else s.easterEggSeq)
              ++ [{ action := "feed", time := s.now }]
      ∧ (handleFeed s).easterEggTimer = some (s.easterEggTimer.getD (s.now + EASTER_EGG_WINDOW)) := by
  have hlt : ¬ s.stats.hunger ≥ STAT_MAX := by simp [STAT_MAX, h]
  unfold handleFeed
  rw [if_neg hlt]
  simp only [recordEasterEgg_feed, easterEggPush_frame, evolutionEffect_stats,
    evolutionEffect_easterEggSeq, evolutionEffect_easterEggTimer, showToast, triggerAnim]
  simp

/-- What an effective `handlePlay` does to the stats, the log and the
window. -/
theorem handlePlay_effect (s : State) (h : s.stats.happiness < 100) :
    (handlePlay s).stats.happiness = clamp (s.stats.happiness + 18)
      ∧ (handlePlay s).stats.hunger = s.stats.hunger
      ∧ (handlePlay s).stats.energy = s.stats.energy
      ∧ (handlePlay s).easterEggSeq
          = (if s.easterEggTimer.isNone then [] else s.easterEggSeq)
              ++ [{ action := "play", time := s.now }]
      ∧ (handlePlay s).easterEggTimer = some (s.easterEggTimer.getD (s.now + EASTER_EGG_WINDOW)) := by
  have hlt : ¬ s.stats.happiness ≥ STAT_MAX := by simp [STAT_MAX, h]
  unfold handlePlay
  rw [if_neg hlt]
  simp only [recordEasterEgg_play, easterEggPush_frame, evolutionEffect_stats,
    evolutionEffect_easterEggSeq, evolutionEffect_easterEggTimer, showToast, triggerAnim]
  simp

/-- An effective `handleSleep` that completes the pattern. -/
theorem handleSleep_of_match (s : State) (h : s.stats.energy < 100)
    (hm : easterEggMatch ((if s.easterEggTimer.isNone then [] else s.easterEggSeq)
      ++ [{ action := "sleep", time := s.now }]) = true) :
    (handleSleep s).stats.energy = clamp (clamp (s.stats.energy + 18) + 10)
      ∧ (handleSleep s).stats.hunger = clamp (s.stats.hunger + 10)
      ∧ (handleSleep s).stats.happiness = clamp (s.stats.happiness + 10)
      ∧ (handleSleep s).easterEggSeq = [] ∧ (handleSleep s).easterEggTimer = none
      ∧ (handleSleep s).showEasterEgg = true := by
  have hlt : ¬ s.stats.energy ≥ STAT_MAX := by simp [STAT_MAX, h]
  unfold handleSleep
  rw [if_neg hlt]
  dsimp only
  rw [recordEasterEgg_of_match]
  · simp only [evolutionEffect_stats, evolutionEffect_easterEggSeq, evolutionEffect_showEasterEgg,
      evolutionEffect_easterEggTimer, showToast, triggerAnim, easterEggBonus, easterEggPush_frame]
    simp
  · simp only [easterEggPush_frame, showToast, triggerAnim]
    exact hm

/-- An effective `handleSleep` that does not complete the pattern. -/
theorem handleSleep_of_not_match (s : State) (h : s.stats.energy < 100)
    (hm : easterEggMatch ((if s.easterEggTimer.isNone then [] else s.easterEggSeq)
      ++ [{ action := "sleep", time := s.now }]) = false) :
    (handleSleep s).stats.energy = clamp (s.stats.energy + 18)
      ∧ (handleSleep s).stats.hunger = s.stats.hunger
      ∧ (handleSleep s).stats.happiness = s.stats.happiness
      ∧ (handleSleep s).easterEggSeq
          = (if s.easterEggTimer.isNone then [] else s.easterEggSeq)
              ++ [{ action := "sleep", time := s.now }]
      ∧ (handleSleep s).easterEggTimer = some (s.easterEggTimer.getD (s.now + EASTER_EGG_WINDOW))
      ∧ (handleSleep s).showEasterEgg = s.showEasterEgg := by
  have hlt : ¬ s.stats.energy ≥ STAT_MAX := by simp [STAT_MAX, h]
  unfold handleSleep
  rw [if_neg hlt]
  dsimp only
  rw [recordEasterEgg_of_not_match]
  · simp only [evolutionEffect_stats, evolutionEffect_easterEggSeq, evolutionEffect_showEasterEgg,
      evolutionEffect_easterEggTimer, showToast, triggerAnim, easterEggPush_frame]
    simp
  · simp only [easterEggPush_frame, showToast, triggerAnim]
    exact hm

theorem easterEggMatch_of_kinds (log : List EggEntry) (pre : List String)
    (h : kindsOf log = pre ++ SECRET_KINDS) : easterEggMatch log = true := by
  have := endsWith_join_of_suffix pre
  rw [← h] at this
  exact this

/-- An effective `handleFeed` while a window is open appends to its log. -/
theorem handleFeed_open (s : State) (d : Nat) (h : s.stats.hunger < 100)
    (hd : s.easterEggTimer = some d) :
    (handleFeed s).easterEggSeq = s.easterEggSeq ++ [{ action := "feed", time := s.now }]
      ∧ (handleFeed s).easterEggTimer = some d := by
  have hlt : ¬ s.stats.hunger ≥ STAT_MAX := by simp [STAT_MAX, h]
  unfold handleFeed
  rw [if_neg hlt]
  simp only [recordEasterEgg_feed, easterEggPush_frame, evolutionEffect_stats,
    evolutionEffect_easterEggSeq, evolutionEffect_easterEggTimer, showToast, triggerAnim]
  rw [hd]
  exact ⟨rfl, rfl⟩

/-- An effective `handlePlay` while a window is open appends to its log. -/
theorem handlePlay_open (s : State) (d : Nat) (h : s.stats.happiness < 100)
    (hd : s.easterEggTimer = some d) :
    (handlePlay s).easterEggSeq = s.easterEggSeq ++ [{ action := "play", time := s.now }]
      ∧ (handlePlay s).easterEggTimer = some d := by
  have hlt : ¬ s.stats.happiness ≥ STAT_MAX := by simp [STAT_MAX, h]
  unfold handlePlay
  rw [if_neg hlt]
  simp only [recordEasterEgg_play, easterEggPush_frame, evolutionEffect_stats,
    evolutionEffect_easterEggSeq, evolutionEffect_easterEggTimer, showToast, triggerAnim]
  rw [hd]
  exact ⟨rfl, rfl⟩

theorem openLog_some (s : State) (d : Nat) (hd : s.easterEggTimer = some d) :
    (if s.easterEggTimer.isNone then [] else s.easterEggSeq) = s.easterEggSeq := by
  rw [hd]
  rfl

theorem openLog_none (s : State) (hd : s.easterEggTimer = none) :
    (if s.easterEggTimer.isNone then [] else s.easterEggSeq) = [] := by
  rw [hd]
  rfl

/-- Claim C2 (amended).  Secret sequence trigger: in every run in which feed,
feed, feed, play, sleep are recorded by `recordEasterEgg` consecutively (any
events other than interactions may happen in between) and in that order, with
the last recorded before the window that is open once the first is recorded
closes (the window already open then, else the one the first feed opens,
which closes 60 seconds after it), the first four leave the other stats as
they are, the fifth applies the +10 bonus to hunger, energy and happiness
(clamped), and immediately afterwards the log is empty and no window timer is
pending. -/
theorem secret_sequence_trigger (s0 s1 b2 s2 b3 s3 b4 s4 b5 s5 : State)
    (E2 E3 E4 E5 : List Event)
    (h1 : s1 = step s0 .feed) (hb2 : b2 = run s1 E2) (h2 : s2 = step b2 .feed)
    (hb3 : b3 = run s2 E3) (h3 : s3 = step b3 .feed) (hb4 : b4 = run s3 E4)
    (h4 : s4 = step b4 .play) (hb5 : b5 = run s4 E5) (h5 : s5 = step b5 .sleep)
    (hE2 : ∀ e ∈ E2, e.isAction = false) (hE3 : ∀ e ∈ E3, e.isAction = false)
    (hE4 : ∀ e ∈ E4, e.isAction = false) (hE5 : ∀ e ∈ E5, e.isAction = false)
    (hr1 : s0.stats.hunger < 100) (hr2 : b2.stats.hunger < 100) (hr3 : b3.stats.hunger < 100)
    (hr4 : b4.stats.happiness < 100) (hr5 : b5.stats.energy < 100)
    (hwin : b5.now < s0.easterEggTimer.getD (s0.now + EASTER_EGG_WINDOW)) :
    (s1.stats.energy = s0.stats.energy ∧ s1.stats.happiness = s0.stats.happiness)
      ∧ (s2.stats.energy = b2.stats.energy ∧ s2.stats.happiness = b2.stats.happiness)
      ∧ (s3.stats.energy = b3.stats.energy ∧ s3.stats.happiness = b3.stats.happiness)
      ∧ (s4.stats.hunger = b4.stats.hunger ∧ s4.stats.energy = b4.stats.energy)
      ∧ (s5.stats.hunger = clamp (b5.stats.hunger + 10)
        ∧ s5.stats.energy = clamp (clamp (b5.stats.energy + 18) + 10)
        ∧ s5.stats.happiness = clamp (b5.stats.happiness + 10))
      ∧ s5.showEasterEgg = true ∧ s5.easterEggSeq = [] ∧ s5.easterEggTimer = none := by
  generalize hd : s0.easterEggTimer.getD (s0.now + EASTER_EGG_WINDOW) = d at hwin
  have e1 : s1 = handleFeed s0 := h1
  have e2 : s2 = handleFeed b2 := h2
  have e3 : s3 = handleFeed b3 := h3
  have e4 : s4 = handlePlay b4 := h4
  have e5 : s5 = handleSleep b5 := h5
  -- the clock never runs back
  have n1 : s1.now = s0.now := by rw [e1, handleFeed_now]
  have n2 : s2.now = b2.now := by rw [e2, handleFeed_now]
  have n3 : s3.now = b3.now := by rw [e3, handleFeed_now]
  have n4 : s4.now = b4.now := by rw [e4, handlePlay_now]
  have m2 : s1.now ≤ b2.now := by rw [hb2]; exact run_now_mono s1 E2
  have m3 : s2.now ≤ b3.now := by rw [hb3]; exact run_now_mono s2 E3
  have m4 : s3.now ≤ b4.now := by rw [hb4]; exact run_now_mono s3 E4
  have m5 : s4.now ≤ b5.now := by rw [hb5]; exact run_now_mono s4 E5
  have t4 : b4.now < d := lt_of_le_of_lt (by rw [← n4]; exact m5) hwin
  have t3 : b3.now < d := lt_of_le_of_lt (by rw [← n3]; exact m4) t4
  have t2 : b2.now < d := lt_of_le_of_lt (by rw [← n2]; exact m3) t3
  -- first feed
  obtain ⟨-, f1e, f1h, f1s, f1t⟩ := handleFeed_effect s0 hr1
  rw [hd, ← e1] at f1t
  rw [← e1] at f1e f1h f1s
  -- second feed
  have g2 := run_egg_open s1 E2 d hE2 f1t (by rw [← hb2]; exact t2)
  rw [← hb2] at g2
  obtain ⟨-, f2e, f2h, -, -⟩ := handleFeed_effect b2 hr2
  obtain ⟨f2s, f2t⟩ := handleFeed_open b2 d hr2 g2.2
  rw [← e2] at f2e f2h f2s f2t
  rw [g2.1, f1s] at f2s
  -- third feed
  have g3 := run_egg_open s2 E3 d hE3 f2t (by rw [← hb3]; exact t3)
  rw [← hb3] at g3
  obtain ⟨-, f3e, f3h, -, -⟩ := handleFeed_effect b3 hr3
  obtain ⟨f3s, f3t⟩ := handleFeed_open b3 d hr3 g3.2
  rw [← e3] at f3e f3h f3s f3t
  rw [g3.1, f2s] at f3s
  -- play
  have g4 := run_egg_open s3 E4 d hE4 f3t (by rw [← hb4]; exact t4)
  rw [← hb4] at g4
  obtain ⟨-, f4h, f4e, -, -⟩ := handlePlay_effect b4 hr4
  obtain ⟨f4s, f4t⟩ := handlePlay_open b4 d hr4 g4.2
  rw [← e4] at f4h f4e f4s f4t
  rw [g4.1, f3s] at f4s
  -- sleep
  have g5 := run_egg_open s4 E5 d hE5 f4t (by rw [← hb5]; exact hwin)
  rw [← hb5] at g5
  have hm : easterEggMatch ((if b5.easterEggTimer.isNone then [] else b5.easterEggSeq)
      ++ [{ action := "sleep", time := b5.now }]) = true := by
    rw [openLog_some b5 d g5.2, g5.1, f4s]
    apply easterEggMatch_of_kinds _
      (kindsOf (if s0.easterEggTimer.isNone then [] else s0.easterEggSeq))
    simp [kindsOf, SECRET_KINDS]
  obtain ⟨k1, k2, k3, k4, k5, k6⟩ := handleSleep_of_match b5 hr5 hm
  rw [← e5] at k1 k2 k3 k4 k5 k6
  exact ⟨⟨f1e, f1h⟩, ⟨f2e, f2h⟩, ⟨f3e, f3h⟩, ⟨f4h, f4e⟩, ⟨k2, k1, k3⟩, k6, k4, k5⟩

/-- Witness for C2 (amended): the run `ritualEvents` followed by a sleep.  The
first feed, at 101 s, opens the window; the sleep comes four seconds later. -/
theorem secret_sequence_trigger_witness :
    (handleSleep ritualState).stats.hunger = clamp (ritualState.stats.hunger + 10)
      ∧ (handleSleep ritualState).stats.energy
          = clamp (clamp (ritualState.stats.energy + 18) + 10)
      ∧ (handleSleep ritualState).stats.happiness = clamp (ritualState.stats.happiness + 10)
      ∧ (handleSleep ritualState).showEasterEgg = true
      ∧ (handleSleep ritualState).easterEggSeq = []
      ∧ (handleSleep ritualState).easterEggTimer = none :=
  have h := secret_sequence_trigger ritualStart
    (step ritualStart .feed)
    (run (step ritualStart .feed) [.advance 1000])
    (step (run (step ritualStart .feed) [.advance 1000]) .feed)
    (run (step (run (step ritualStart .feed) [.advance 1000]) .feed) [.advance 1000])
    (step (run (step (run (step ritualStart .feed) [.advance 1000]) .feed) [.advance 1000]) .feed)
    (run (step (run (step (run (step ritualStart .feed) [.advance 1000]) .feed)
      [.advance 1000]) .feed) [.advance 1000])
    (step (run (step (run (step (run (step ritualStart .feed) [.advance 1000]) .feed)
      [.advance 1000]) .feed) [.advance 1000]) .play)
    ritualState
    (handleSleep ritualState)
    [.advance 1000] [.advance 1000] [.advance 1000] [.advance 1000]
    rfl rfl rfl rfl rfl rfl rfl (by decide) rfl
    (by decide) (by decide) (by decide) (by decide)
    (by decide) (by decide) (by decide) (by decide) (by decide) (by decide)
  ⟨h.2.2.2.2.1.1, h.2.2.2.2.1.2.1, h.2.2.2.2.1.2.2, h.2.2.2.2.2.1, h.2.2.2.2.2.2.1,
    h.2.2.2.2.2.2.2⟩

/-- Counterexample to C2 as stated.  A play at 101 s opens a window that
closes at 161 s.  Feed, feed, feed are recorded at 155 s, 156 s and 157 s
(the log is then play, feed, feed, feed), play at 162 s and sleep at 163 s:
five consecutive recordings in the right order, the last eight seconds after
the first.  The window closed in between, so after the sleep no bonus has been
applied (hunger and happiness are what they were before it, energy has only
its +18), no secret has been shown, the log is not empty and a window timer
is pending. -/
theorem secret_sequence_trigger_counterexample :
    staleWindowState.stats.hunger < 100
      ∧ (run staleWindowState (staleWindowRitual.take 2)).stats.hunger < 100
      ∧ (run staleWindowState (staleWindowRitual.take 4)).stats.hunger < 100
      ∧ (run staleWindowState (staleWindowRitual.take 8)).stats.happiness < 100
      ∧ (run staleWindowState (staleWindowRitual.take 10)).stats.energy < 100
      ∧ staleWindowState.now = 155000
      ∧ (run staleWindowState (staleWindowRitual.take 10)).now = 163000
      ∧ (run staleWindowState (staleWindowRitual.take 5)).easterEggSeq
          = [⟨"play", 101000⟩, ⟨"feed", 155000⟩, ⟨"feed", 156000⟩, ⟨"feed", 157000⟩]
      ∧ (run staleWindowState staleWindowRitual).easterEggSeq
          = [⟨"play", 162000⟩, ⟨"sleep", 163000⟩]
      ∧ (run staleWindowState staleWindowRitual).easterEggTimer = some 222000
      ∧ (run staleWindowState staleWindowRitual).showEasterEgg = false
      ∧ (run staleWindowState staleWindowRitual).stats.hunger
          = (run staleWindowState (staleWindowRitual.take 10)).stats.hunger
      ∧ (run staleWindowState staleWindowRitual).stats.happiness
          = (run staleWindowState (staleWindowRitual.take 10)).stats.happiness
      ∧ (run staleWindowState staleWindowRitual).stats.energy
          = clamp ((run staleWindowState (staleWindowRitual.take 10)).stats.energy + 18) := by
  refine ⟨?_, ?_, ?_, ?_, ?_, ?_, ?_, ?_, ?_, ?_, ?_, ?_, ?_, ?_⟩ <;> decide

/-! ## The window invariant -/

theorem evolutionEffectBody_egg (s : State) :
    (evolutionEffectBody s).easterEggSeq = s.easterEggSeq
      ∧ (evolutionEffectBody s).easterEggTimer = s.easterEggTimer := by
  obtain ⟨_, _, _, _, h⟩ := evolutionEffectBody_frame s
  rw [h]
  exact ⟨rfl, rfl⟩

theorem applyLoaded_egg (savedName : Option String) (st : Option Stats)
    (savedAvatar : Option String) (s : State) :
    (applyLoaded savedName st savedAvatar s).easterEggSeq = s.easterEggSeq
      ∧ (applyLoaded savedName st savedAvatar s).easterEggTimer = s.easterEggTimer := by
  unfold applyLoaded
  dsimp only
  cases st <;> dsimp only <;> split_ifs <;> exact ⟨rfl, rfl⟩

theorem loadedEffects_egg (old : State) (b : Bool) (s : State) :
    (loadedEffects old b s).easterEggSeq = s.easterEggSeq
      ∧ (loadedEffects old b s).easterEggTimer = s.easterEggTimer := by
  unfold loadedEffects
  dsimp only
  split
  · rw [evolutionEffect_easterEggSeq, evolutionEffect_easterEggTimer,
      (welcomeEffects_egg _ _).1, (welcomeEffects_egg _ _).2.1]
    exact ⟨rfl, rfl⟩
  · rw [(welcomeEffects_egg _ _).1, (welcomeEffects_egg _ _).2.1]
    exact ⟨rfl, rfl⟩

theorem mount_egg (jsonParse : String → Except String Stats)
    (savedName savedStats savedAvatar : Option String) (t : Nat) (s : State)
    (h : mount jsonParse savedName savedStats savedAvatar t = .ok s) :
    s.easterEggSeq = [] ∧ s.easterEggTimer = none := by
  unfold mount at h
  dsimp only at h
  split at h
  · exact absurd h (by simp)
  · simp only [Except.ok.injEq] at h
    rw [← h, (loadedEffects_egg _ _ _).1, (loadedEffects_egg _ _ _).2,
      (applyLoaded_egg _ _ _ _).1, (applyLoaded_egg _ _ _ _).2,
      (evolutionEffectBody_egg _).1, (evolutionEffectBody_egg _).2]
    exact ⟨rfl, rfl⟩

theorem eggInv_congr (s s' : State) (h1 : s'.easterEggSeq = s.easterEggSeq)
    (h2 : s'.easterEggTimer = s.easterEggTimer) (h3 : s'.now = s.now) (h : EggInv s) :
    EggInv s' := by
  unfold EggInv at h ⊢
  rw [h1, h2, h3]
  exact h

theorem eggInv_cleared (s : State) (h1 : s.easterEggSeq = []) (h2 : s.easterEggTimer = none) :
    EggInv s := by
  refine ⟨fun _ => h1, fun d hd => ?_⟩
  rw [h2] at hd
  exact absurd hd (by simp)

theorem eggInv_advance (dt : Nat) (s : State) (h : EggInv s) : EggInv (advance dt s) := by
  cases hT : s.easterEggTimer with
  | none =>
    obtain ⟨a1, a2⟩ := advance_egg_none dt s hT
    exact eggInv_cleared _ (by rw [a1]; exact h.1 hT) a2
  | some d =>
    by_cases hle : d ≤ s.now + dt
    · obtain ⟨a1, a2⟩ := advance_egg_expired dt s d hT hle
      exact eggInv_cleared _ a1 a2
    · obtain ⟨a1, a2⟩ := advance_egg_open dt s d hT (by omega)
      obtain ⟨-, e0, rest, hs, hd, hall⟩ := h.2 d hT
      refine ⟨fun hn => ?_, fun d' hd' => ?_⟩
      · rw [a2] at hn
        exact absurd hn (by simp)
      · rw [a2] at hd'
        have hdd : d' = d := by injection hd' with hd'; exact hd'.symm
        subst hdd
        rw [advance_now, a1]
        refine ⟨by omega, e0, rest, hs, hd, fun e he => ?_⟩
        obtain ⟨x1, x2, x3⟩ := hall e he
        exact ⟨x1, by omega, x3⟩

theorem eggInv_push (a : String) (s : State) (ha : IsKind a) (h : EggInv s) :
    EggInv (easterEggPush a s) := by
  rw [easterEggPush_frame]
  cases hT : s.easterEggTimer with
  | none =>
    refine ⟨fun hn => absurd hn (by simp), fun d hd => ?_⟩
    simp only [Option.some.injEq, Option.getD_none] at hd
    subst hd
    refine ⟨by simp [EASTER_EGG_WINDOW], { action := a, time := s.now }, [], by simp, rfl, ?_⟩
    intro e he
    simp only [Option.isNone_none, if_true, List.nil_append, List.mem_singleton] at he
    subst he
    exact ⟨le_refl _, le_refl _, ha⟩
  | some d0 =>
    obtain ⟨hlt, e0, rest, hs, hd0, hall⟩ := h.2 d0 hT
    refine ⟨fun hn => absurd hn (by simp), fun d hd => ?_⟩
    simp only [Option.some.injEq, Option.getD_some] at hd
    subst hd
    refine ⟨hlt, e0, rest ++ [{ action := a, time := s.now }], by simp [hs], hd0, ?_⟩
    intro e he
    simp only [Option.isNone_some, Bool.false_eq_true, if_false, List.mem_append,
      List.mem_singleton] at he
    rcases he with he | he
    · exact hall e he
    · subst he
      exact ⟨(hall e0 (by rw [hs]; simp)).2.1, le_refl _, ha⟩

theorem eggInv_record (a : String) (s : State) (ha : IsKind a) (h : EggInv s) :
    EggInv (recordEasterEgg a s) := by
  cases hm : easterEggMatch (easterEggPush a s).easterEggSeq with
  | true =>
    rw [recordEasterEgg_of_match a s hm]
    exact eggInv_cleared _ rfl rfl
  | false =>
    rw [recordEasterEgg_of_not_match a s hm]
    exact eggInv_push a s ha h

theorem eggInv_evolutionEffect (s : State) (h : EggInv s) : EggInv (evolutionEffect s) :=
  eggInv_congr s _ (evolutionEffect_easterEggSeq s) (evolutionEffect_easterEggTimer s)
    (evolutionEffect_now s) h

theorem eggInv_handleFeed (s : State) (h : EggInv s) : EggInv (handleFeed s) := by
  unfold handleFeed
  split
  · exact h
  · exact eggInv_evolutionEffect _
      (eggInv_record _ _ (Or.inl rfl) (eggInv_congr s _ rfl rfl rfl h))

theorem eggInv_handleSleep (s : State) (h : EggInv s) : EggInv (handleSleep s) := by
  unfold handleSleep
  split
  · exact h
  · exact eggInv_evolutionEffect _
      (eggInv_record _ _ (Or.inr (Or.inl rfl)) (eggInv_congr s _ rfl rfl rfl h))

theorem eggInv_handlePlay (s : State) (h : EggInv s) : EggInv (handlePlay s) := by
  unfold handlePlay
  split
  · exact h
  · exact eggInv_evolutionEffect _
      (eggInv_record _ _ (Or.inr (Or.inr rfl)) (eggInv_congr s _ rfl rfl rfl h))

theorem eggInv_step (s : State) (e : Event) (h : EggInv s) : EggInv (step s e) := by
  by_cases hadv : ∃ dt, e = .advance dt
  · obtain ⟨dt, rfl⟩ := hadv
    exact eggInv_advance dt s h
  · cases hA : e.isAction with
    | false =>
      obtain ⟨h1, h2, h3⟩ := step_static_egg s e hA (fun dt h => hadv ⟨dt, h⟩)
      exact eggInv_congr s _ h1 h2 h3 h
    | true =>
      cases e <;> simp [Event.isAction] at hA
      · exact eggInv_handleFeed s h
      · exact eggInv_handleSleep s h
      · exact eggInv_handlePlay s h

theorem eggInv_run (s : State) (E : List Event) (h : EggInv s) : EggInv (run s E) := by
  induction E generalizing s with
  | nil => exact h
  | cons e E ih => exact ih (step s e) (eggInv_step s e h)

/-- Every reachable state satisfies the window invariant. -/
theorem eggInv_of_reachable (s : State) (h : Reachable s) : EggInv s := by
  obtain ⟨p, n, st, av, t, s0, evs, hm, rfl⟩ := h
  obtain ⟨h1, h2⟩ := mount_egg p n st av t s0 hm
  exact eggInv_run s0 evs (eggInv_cleared s0 h1 h2)

/-! ## A window that closes during the sequence -/

theorem step_nonaction_seq (s : State) (e : Event) (hna : e.isAction = false) :
    ((step s e).easterEggSeq = s.easterEggSeq ∧ (step s e).easterEggTimer = s.easterEggTimer)
      ∨ ((step s e).easterEggSeq = [] ∧ (step s e).easterEggTimer = none) := by
  by_cases hadv : ∃ dt, e = .advance dt
  · obtain ⟨dt, rfl⟩ := hadv
    simp only [step]
    cases hT : s.easterEggTimer with
    | none =>
      obtain ⟨a1, a2⟩ := advance_egg_none dt s hT
      exact Or.inl ⟨a1, a2⟩
    | some d =>
      by_cases hle : d ≤ s.now + dt
      · exact Or.inr (advance_egg_expired dt s d hT hle)
      · exact Or.inl (advance_egg_open dt s d hT (by omega))
  · obtain ⟨h1, h2, _⟩ := step_static_egg s e hna (fun dt h => hadv ⟨dt, h⟩)
    exact Or.inl ⟨h1, h2⟩

theorem staleOrShort_step (T : Nat) (M : List String) (s : State) (e : Event)
    (hna : e.isAction = false) (h : StaleOrShort T M s) : StaleOrShort T M (step s e) := by
  rcases step_nonaction_seq s e hna with ⟨h1, h2⟩ | ⟨h1, _⟩
  · rcases h with ⟨d, hd, hlt, hT⟩ | hF
    · by_cases hopen : (step s e).now < d
      · exact Or.inl ⟨d, by rw [h2, hd], hopen, hT⟩
      · exfalso
        by_cases hadv : ∃ dt, e = .advance dt
        · obtain ⟨dt, rfl⟩ := hadv
          simp only [step, advance_now] at hopen h2
          have := (advance_egg_expired dt s d hd (by omega)).2
          rw [h2, hd] at this
          exact absurd this (by simp)
        · have := (step_static_egg s e hna (fun dt h => hadv ⟨dt, h⟩)).2.2
          omega
    · exact Or.inr (by rw [h1]; exact hF)
  · exact Or.inr (by rw [h1]; exact List.nil_suffix)

theorem staleOrShort_run (T : Nat) (M : List String) (s : State) (E : List Event)
    (hna : ∀ e ∈ E, e.isAction = false) (h : StaleOrShort T M s) :
    StaleOrShort T M (run s E) := by
  induction E generalizing s with
  | nil => exact h
  | cons e E ih =>
    exact ih (step s e) (fun e' he' => hna e' (by simp [he']))
      (staleOrShort_step T M s e (hna e (by simp)) h)

theorem kindsOf_openLog_suffix (M : List String) (s : State) (a : String) (t : Nat)
    (h : kindsOf s.easterEggSeq <:+ M) :
    kindsOf ((if s.easterEggTimer.isNone then [] else s.easterEggSeq)
      ++ [{ action := a, time := t }]) <:+ M ++ [a] := by
  rw [kindsOf_concat]
  cases hT : s.easterEggTimer with
  | none =>
    simp only [Option.isNone_none, if_true]
    exact ⟨M, rfl⟩
  | some d =>
    simp only [Option.isNone_some, Bool.false_eq_true, if_false]
    obtain ⟨t', ht'⟩ := h
    exact ⟨t', by rw [← ht', List.append_assoc]⟩

theorem staleOrShort_handleFeed (T : Nat) (M : List String) (s : State)
    (hr : s.stats.hunger < 100) (h : StaleOrShort T M s) :
    StaleOrShort T (M ++ ["feed"]) (handleFeed s) := by
  rcases h with ⟨d, hd, hlt, hT⟩ | hF
  · exact Or.inl ⟨d, (handleFeed_open s d hr hd).2, by rw [handleFeed_now]; exact hlt, hT⟩
  · refine Or.inr ?_
    rw [(handleFeed_effect s hr).2.2.2.1]
    exact kindsOf_openLog_suffix M s "feed" s.now hF

theorem staleOrShort_handlePlay (T : Nat) (M : List String) (s : State)
    (hr : s.stats.happiness < 100) (h : StaleOrShort T M s) :
    StaleOrShort T (M ++ ["play"]) (handlePlay s) := by
  rcases h with ⟨d, hd, hlt, hT⟩ | hF
  · exact Or.inl ⟨d, (handlePlay_open s d hr hd).2, by rw [handlePlay_now]; exact hlt, hT⟩
  · refine Or.inr ?_
    rw [(handlePlay_effect s hr).2.2.2.1]
    exact kindsOf_openLog_suffix M s "play" s.now hF

/-- A log with fewer than five entries of the three kinds does not match. -/
theorem easterEggMatch_short (log : List EggEntry) (M : List String)
    (hM : ∀ a ∈ M, IsKind a) (hlen : M.length < 5) (h : kindsOf log <:+ M) :
    easterEggMatch log = false := by
  cases hm : easterEggMatch log with
  | false => rfl
  | true =>
    exfalso
    have hk : ∀ a ∈ kindsOf log, IsKind a := fun a ha => hM a (h.subset ha)
    obtain ⟨pre, hp⟩ := suffix_of_endsWith_join (kindsOf log) hk hm
    have h1 := h.length_le
    rw [hp] at h1
    simp [SECRET_KINDS] at h1
    omega

/-- The first feed leaves a window open that closes at most
`EASTER_EGG_WINDOW` after it. -/
theorem staleOrShort_first (s : State) (hr : s.stats.hunger < 100) (h : EggInv s) :
    StaleOrShort (s.now + EASTER_EGG_WINDOW) [] (handleFeed s) := by
  have ht := (handleFeed_effect s hr).2.2.2.2
  cases hT : s.easterEggTimer with
  | none =>
    rw [hT] at ht
    exact Or.inl ⟨s.now + EASTER_EGG_WINDOW, ht,
      by rw [handleFeed_now]; simp [EASTER_EGG_WINDOW], le_refl _⟩
  | some d =>
    obtain ⟨hlt, e0, rest, hs, hd0, hall⟩ := h.2 d hT
    have h0 := (hall e0 (by rw [hs]; simp)).2.1
    exact Or.inl ⟨d, (handleFeed_open s d hr hT).2, by rw [handleFeed_now]; exact hlt,
      by rw [hd0]; omega⟩

/-- Claim C8.  Secret sequence window expiry.  First part: in every run from
a reachable state in which feed, feed, feed, play, sleep are recorded by
`recordEasterEgg` consecutively (events other than interactions may happen
in between) with more than 60 seconds between the first and the last, the
sleep applies no bonus: hunger and happiness are left as they are, energy
gets its +18 only, no secret is shown and the log is not cleared.  Second
part: in every reachable state, whenever recording an action makes the test
of `recordEasterEgg` succeed (so that the bonus is applied), the matched
actions are the last five entries of the log, the first entry of the log is
the event that opened the current window, and every entry of the log, the
five matched ones included, was recorded at or after that event and less than
60 seconds after it. -/
theorem secret_window_expiry (s0 s1 b2 s2 b3 s3 b4 s4 b5 s5 : State)
    (E2 E3 E4 E5 : List Event) (s : State) (a : String)
    (hreach0 : Reachable s0) (hreach : Reachable s) (ha : IsKind a)
    (h1 : s1 = step s0 .feed) (hb2 : b2 = run s1 E2) (h2 : s2 = step b2 .feed)
    (hb3 : b3 = run s2 E3) (h3 : s3 = step b3 .feed) (hb4 : b4 = run s3 E4)
    (h4 : s4 = step b4 .play) (hb5 : b5 = run s4 E5) (h5 : s5 = step b5 .sleep)
    (hE2 : ∀ e ∈ E2, e.isAction = false) (hE3 : ∀ e ∈ E3, e.isAction = false)
    (hE4 : ∀ e ∈ E4, e.isAction = false) (hE5 : ∀ e ∈ E5, e.isAction = false)
    (hr1 : s0.stats.hunger < 100) (hr2 : b2.stats.hunger < 100) (hr3 : b3.stats.hunger < 100)
    (hr4 : b4.stats.happiness < 100) (hr5 : b5.stats.energy < 100) :
    (s0.now + EASTER_EGG_WINDOW < b5.now →
        s5.stats.hunger = b5.stats.hunger ∧ s5.stats.happiness = b5.stats.happiness
          ∧ s5.stats.energy = clamp (b5.stats.energy + 18)
          ∧ s5.showEasterEgg = b5.showEasterEgg ∧ s5.easterEggSeq ≠ [])
      ∧ (easterEggMatch (easterEggPush a s).easterEggSeq = true →
          lastFiveMatch (easterEggPush a s).easterEggSeq = true
            ∧ ∃ opening, (easterEggPush a s).easterEggSeq.head? = some opening
              ∧ (easterEggPush a s).easterEggTimer = some (opening.time + EASTER_EGG_WINDOW)
              ∧ ∀ e ∈ (easterEggPush a s).easterEggSeq,
                  opening.time ≤ e.time ∧ e.time < opening.time + EASTER_EGG_WINDOW) := by
  constructor
  · intro hlate
    have e1 : s1 = handleFeed s0 := h1
    have e2 : s2 = handleFeed b2 := h2
    have e3 : s3 = handleFeed b3 := h3
    have e4 : s4 = handlePlay b4 := h4
    have e5 : s5 = handleSleep b5 := h5
    have a1 := staleOrShort_first s0 hr1 (eggInv_of_reachable s0 hreach0)
    rw [← e1] at a1
    have a2 := staleOrShort_handleFeed _ _ b2 hr2 (hb2 ▸ staleOrShort_run _ _ s1 E2 hE2 a1)
    rw [← e2] at a2
    have a3 := staleOrShort_handleFeed _ _ b3 hr3 (hb3 ▸ staleOrShort_run _ _ s2 E3 hE3 a2)
    rw [← e3] at a3
    have a4 := staleOrShort_handlePlay _ _ b4 hr4 (hb4 ▸ staleOrShort_run _ _ s3 E4 hE4 a3)
    rw [← e4] at a4
    have a5 : StaleOrShort _ _ b5 := hb5 ▸ staleOrShort_run _ _ s4 E5 hE5 a4
    have hF : kindsOf b5.easterEggSeq <:+ ["feed", "feed", "play"] := by
      rcases a5 with ⟨d, _, hlt, hT⟩ | hF
      · omega
      · exact hF
    have hm : easterEggMatch ((if b5.easterEggTimer.isNone then [] else b5.easterEggSeq)
        ++ [{ action := "sleep", time := b5.now }]) = false :=
      easterEggMatch_short _ (["feed", "feed", "play"] ++ ["sleep"])
        (by simp [IsKind]) (by simp) (kindsOf_openLog_suffix _ b5 "sleep" b5.now hF)
    obtain ⟨k1, k2, k3, k4, _, k6⟩ := handleSleep_of_not_match b5 hr5 hm
    rw [← e5] at k1 k2 k3 k4 k6
    exact ⟨k2, k3, k1, k6, by rw [k4]; simp⟩
  · intro hm
    have hinv := eggInv_push a s ha (eggInv_of_reachable s hreach)
    obtain ⟨hlt, e0, rest, hs, hd, hall⟩ := hinv.2 _ (easterEggPush_timer a s)
    have hnow : (easterEggPush a s).now = s.now := by rw [easterEggPush_frame]
    refine ⟨?_, e0, by rw [hs]; rfl, ?_, fun e he => ?_⟩
    · rw [← easterEggMatch_eq_lastFiveMatch _ (fun e he => (hall e he).2.2)]
      exact hm
    · rw [easterEggPush_timer, hd]
    · obtain ⟨x1, x2, _⟩ := hall e he
      exact ⟨x1, by omega⟩

theorem reachable_run_firstVisit (evs : List Event) : Reachable (run firstVisit evs) :=
  ⟨fun _ => .error "not called", none, none, none, 0, firstVisit, evs, rfl, rfl⟩

/-- Witness for C8.  First part: feed, feed, feed, play at 101 s to 104 s as
in `ritualEvents`, then the sleep at 165 s, 64 seconds after the first feed.
Second part: the state `ritualState`, in which recording a sleep completes the
pattern. -/
theorem secret_window_expiry_witness :
    ((handleSleep lateSleepState).stats.hunger = lateSleepState.stats.hunger
        ∧ (handleSleep lateSleepState).stats.happiness = lateSleepState.stats.happiness
        ∧ (handleSleep lateSleepState).stats.energy = clamp (lateSleepState.stats.energy + 18)
        ∧ (handleSleep lateSleepState).showEasterEgg = lateSleepState.showEasterEgg
        ∧ (handleSleep lateSleepState).easterEggSeq ≠ [])
      ∧ (lastFiveMatch (easterEggPush "sleep" ritualState).easterEggSeq = true
        ∧ ∃ opening, (easterEggPush "sleep" ritualState).easterEggSeq.head? = some opening
          ∧ (easterEggPush "sleep" ritualState).easterEggTimer
              = some (opening.time + EASTER_EGG_WINDOW)
          ∧ ∀ e ∈ (easterEggPush "sleep" ritualState).easterEggSeq,
              opening.time ≤ e.time ∧ e.time < opening.time + EASTER_EGG_WINDOW) :=
  have h := secret_window_expiry ritualStart
    (step ritualStart .feed)
    (run (step ritualStart .feed) [.advance 1000])
    (step (run (step ritualStart .feed) [.advance 1000]) .feed)
    (run (step (run (step ritualStart .feed) [.advance 1000]) .feed) [.advance 1000])
    (step (run (step (run (step ritualStart .feed) [.advance 1000]) .feed) [.advance 1000]) .feed)
    (run (step (run (step (run (step ritualStart .feed) [.advance 1000]) .feed)
      [.advance 1000]) .feed) [.advance 1000])
    ritualPlayed
    lateSleepState
    (handleSleep lateSleepState)
    [.advance 1000] [.advance 1000] [.advance 1000] lateSleepGap
    ritualState "sleep"
    (reachable_run_firstVisit _) (reachable_run_firstVisit _) (Or.inr (Or.inl rfl))
    rfl rfl rfl rfl rfl rfl (by decide) rfl rfl
    (by decide) (by decide) (by decide) (by decide)
    (by decide) (by decide) (by decide) (by decide) (by decide)
  ⟨h.1 (by decide), h.2 (by decide)⟩

/-! ## The evolution tracker -/

theorem evolutionEffectCleanup_fields (s : State) :
    (evolutionEffectCleanup s).showWelcome = s.showWelcome
      ∧ (evolutionEffectCleanup s).evolutionEligible = s.evolutionEligible
      ∧ (evolutionEffectCleanup s).now = s.now
      ∧ (evolutionEffectCleanup s).evolutionStart = s.evolutionStart := by
  unfold evolutionEffectCleanup
  split <;> exact ⟨rfl, rfl, rfl, rfl⟩

theorem evolutionEffectBody_low (s : State) (hw : s.showWelcome = false)
    (he : s.stats.evolved = false) (hl : allHigh s.stats = false) :
    Ineligible (evolutionEffectBody s) ∧ (evolutionEffectBody s).evolutionStart = none := by
  simp [Ineligible, evolutionEffectBody, hw, he, hl]

theorem evolutionEffectBody_arm (s : State) (hw : s.showWelcome = false)
    (he : s.stats.evolved = false) (hh : allHigh s.stats = true)
    (hel : s.evolutionEligible = false) :
    (evolutionEffectBody s).evolutionEligible = true
      ∧ (evolutionEffectBody s).evolutionTimer = some (s.now + EVOLUTION_TIME)
      ∧ (evolutionEffectBody s).evolutionStart = some s.now := by
  simp [evolutionEffectBody, hw, he, hh, hel]

theorem evolutionEffectBody_keep (s : State) (hw : s.showWelcome = false)
    (he : s.stats.evolved = false) (hh : allHigh s.stats = true)
    (hel : s.evolutionEligible = true) :
    (evolutionEffectBody s).evolutionEligible = true
      ∧ (evolutionEffectBody s).evolutionTimer = s.evolutionTimer
      ∧ (evolutionEffectBody s).evolutionCleanup = true := by
  simp [evolutionEffectBody, hw, he, hh, hel]

/-- The effect on a running, unevolved simulation whose stats are not all
above 80: the tracker is reset and the timer cancelled. -/
theorem evolutionEffect_low (s : State) (hw : s.showWelcome = false)
    (he : s.stats.evolved = false) (hl : allHigh s.stats = false) :
    Ineligible (evolutionEffect s) ∧ (evolutionEffect s).evolutionStart = none := by
  obtain ⟨c1, c2, c3, c4⟩ := evolutionEffectCleanup_fields s
  have c0 := evolutionEffectCleanup_stats s
  exact evolutionEffectBody_low _ (c1.trans hw) (by rw [c0]; exact he) (by rw [c0]; exact hl)

/-- The effect on a running, unevolved, not yet eligible simulation whose
stats are all above 80: the tracker becomes eligible and a timer is armed for
`EVOLUTION_TIME` from now. -/
theorem evolutionEffect_arm (s : State) (hw : s.showWelcome = false)
    (he : s.stats.evolved = false) (hh : allHigh s.stats = true)
    (hel : s.evolutionEligible = false) :
    (evolutionEffect s).evolutionEligible = true
      ∧ (evolutionEffect s).evolutionTimer = some (s.now + EVOLUTION_TIME)
      ∧ (evolutionEffect s).evolutionStart = some s.now := by
  obtain ⟨c1, c2, c3, c4⟩ := evolutionEffectCleanup_fields s
  have c0 := evolutionEffectCleanup_stats s
  have h := evolutionEffectBody_arm (evolutionEffectCleanup s) (c1.trans hw)
    (by rw [c0]; exact he) (by rw [c0]; exact hh) (c2.trans hel)
  rw [c3] at h
  exact h

/-- The effect on a running, unevolved, already eligible simulation whose
stats are all above 80, when the previous run returned its clean-up: the
pending timer is cancelled and none is armed. -/
theorem evolutionEffect_keep (s : State) (hw : s.showWelcome = false)
    (he : s.stats.evolved = false) (hh : allHigh s.stats = true)
    (hel : s.evolutionEligible = true) (hc : s.evolutionCleanup = true) :
    (evolutionEffect s).evolutionEligible = true ∧ (evolutionEffect s).evolutionTimer = none
      ∧ (evolutionEffect s).evolutionCleanup = true := by
  obtain ⟨c1, c2, c3, c4⟩ := evolutionEffectCleanup_fields s
  have c0 := evolutionEffectCleanup_stats s
  have ct : (evolutionEffectCleanup s).evolutionTimer = none := by
    simp [evolutionEffectCleanup, hc]
  have h := evolutionEffectBody_keep (evolutionEffectCleanup s) (c1.trans hw)
    (by rw [c0]; exact he) (by rw [c0]; exact hh) (c2.trans hel)
  rw [ct] at h
  exact h

theorem animDue_core (s : State) : evoCore (animDue s) = evoCore s := by
  unfold animDue
  split <;> rfl

theorem toastDue_core (s : State) : evoCore (toastDue s) = evoCore s := by
  unfold toastDue
  split <;> rfl

theorem confettiDue_core (s : State) : evoCore (confettiDue s) = evoCore s := by
  unfold confettiDue
  split <;> rfl

theorem easterEggDue_core (s : State) : evoCore (easterEggDue s) = evoCore s := by
  unfold easterEggDue
  split
  · split <;> rfl
  · rfl

theorem allHigh_evolved (st : Stats) (b : Bool) :
    allHigh { st with evolved := b } = allHigh st := rfl

theorem evolutionDue_allHigh (s : State) : allHigh (evolutionDue s).stats = allHigh s.stats := by
  unfold evolutionDue
  split
  · split
    · rw [evolutionFire, evolutionEffect_stats]
      rfl
    · rfl
  · rfl

theorem beforeEvolutionDue_core (s : State) :
    evoCore (easterEggDue (confettiDue (toastDue (animDue s)))) = evoCore s := by
  rw [easterEggDue_core, confettiDue_core, toastDue_core, animDue_core]

/-- Time passing leaves the three numeric stats. -/
theorem advance_allHigh (dt : Nat) (s : State) :
    allHigh (advance dt s).stats = allHigh s.stats := by
  unfold advance fireDue
  rw [evolutionDue_allHigh]
  have h := beforeEvolutionDue_core { s with now := s.now + dt }
  have h2 := congrArg Prod.fst h
  simp only [evoCore] at h2
  rw [h2]

/-- Time passing while no evolution timer is pending leaves what the
evolution effect reads and writes. -/
theorem advance_core_of_no_timer (dt : Nat) (s : State) (ht : s.evolutionTimer = none) :
    evoCore (advance dt s) = evoCore s := by
  unfold advance fireDue
  have h := beforeEvolutionDue_core { s with now := s.now + dt }
  have h3 : (easterEggDue (confettiDue (toastDue (animDue
      { s with now := s.now + dt })))).evolutionTimer = none := by
    have := congrArg (fun c => c.2.2.2.1) h
    simp only [evoCore] at this
    rw [this]
    exact ht
  unfold evolutionDue
  rw [h3]
  exact h

theorem recordEasterEgg_evo (a : String) (s : State) :
    (recordEasterEgg a s).showWelcome = s.showWelcome
      ∧ (recordEasterEgg a s).evolutionEligible = s.evolutionEligible
      ∧ (recordEasterEgg a s).evolutionTimer = s.evolutionTimer := by
  cases hm : easterEggMatch (easterEggPush a s).easterEggSeq with
  | true =>
    rw [recordEasterEgg_of_match a s hm, easterEggPush_frame]
    exact ⟨rfl, rfl, rfl⟩
  | false =>
    rw [recordEasterEgg_of_not_match a s hm, easterEggPush_frame]
    exact ⟨rfl, rfl, rfl⟩

theorem openSettings_stats (s : State) : (openSettings s).stats = s.stats := by
  unfold openSettings
  split
  · rfl
  · rw [evolutionEffect_stats]
    unfold welcomeEffects intervalEffects
    split <;> rfl

/-- An event either leaves what the evolution effect reads and writes, or
ends with a re-run of the effect on a state that agrees with the old one on
`evolved`, the tracker flag, the timer slot and the clock, and on
`showWelcome` or else on the three numeric stats. -/
theorem step_cases (s : State) (e : Event)
    (hadv : (∃ dt, e = .advance dt) → s.evolutionTimer = none) :
    evoCore (step s e) = evoCore s
      ∨ ∃ X, step s e = evolutionEffect X
          ∧ X.stats.evolved = s.stats.evolved ∧ X.evolutionEligible = s.evolutionEligible
          ∧ X.evolutionTimer = s.evolutionTimer ∧ X.now = s.now
          ∧ (X.showWelcome = s.showWelcome ∨ allHigh X.stats = allHigh s.stats) := by
  cases e with
  | advance dt => exact Or.inl (advance_core_of_no_timer dt s (hadv ⟨dt, rfl⟩))
  | decayTick =>
    simp only [step]
    split
    · exact Or.inr ⟨_, rfl, rfl, rfl, rfl, rfl, Or.inl rfl⟩
    · exact Or.inl rfl
  | rewardTick i =>
    simp only [step]
    split
    · exact Or.inr ⟨_, rfl, rewardStats_evolved _ _, rfl, rfl, rfl, Or.inl rfl⟩
    · exact Or.inl rfl
  | feed =>
    simp only [step]
    unfold handleFeed
    split
    · exact Or.inl rfl
    · obtain ⟨r1, r2, r3⟩ := recordEasterEgg_evo "feed" (showToast "Your pet loved the food!"
        (triggerAnim "bounce"
          { s with stats := { s.stats with hunger := clamp (s.stats.hunger + 18) } }))
      exact Or.inr ⟨_, rfl, (recordEasterEgg_evolved _ _).trans rfl, r2, r3,
        recordEasterEgg_now _ _, Or.inl r1⟩
  | sleep =>
    simp only [step]
    unfold handleSleep
    split
    · exact Or.inl rfl
    · obtain ⟨r1, r2, r3⟩ := recordEasterEgg_evo "sleep" (showToast "Your pet had a nice nap!"
        (triggerAnim "sleep"
          { s with stats := { s.stats with energy := clamp (s.stats.energy + 18) } }))
      exact Or.inr ⟨_, rfl, (recordEasterEgg_evolved _ _).trans rfl, r2, r3,
        recordEasterEgg_now _ _, Or.inl r1⟩
  | play =>
    simp only [step]
    unfold handlePlay
    split
    · exact Or.inl rfl
    · obtain ⟨r1, r2, r3⟩ := recordEasterEgg_evo "play" (showToast "Your pet had fun playing!"
        (triggerAnim "wiggle"
          { s with stats := { s.stats with happiness := clamp (s.stats.happiness + 18) } }))
      exact Or.inr ⟨_, rfl, (recordEasterEgg_evolved _ _).trans rfl, r2, r3,
        recordEasterEgg_now _ _, Or.inl r1⟩
  | inputName v => exact Or.inl rfl
  | nameSubmit =>
    simp only [step]
    unfold handleNameSubmit
    split
    · refine Or.inr ⟨_, rfl, ?_, ?_, ?_, ?_, Or.inr ?_⟩ <;>
        (unfold welcomeEffects intervalEffects; split <;> rfl)
    · exact Or.inl rfl
  | avatarSelect key => exact Or.inl rfl
  | openSettings =>
    simp only [step]
    unfold openSettings
    split
    · exact Or.inl rfl
    · refine Or.inr ⟨_, rfl, ?_, ?_, ?_, ?_, Or.inr ?_⟩ <;>
        (unfold welcomeEffects intervalEffects; split <;> rfl)
  | closeEvolve => exact Or.inl rfl
  | closeEasterEgg => exact Or.inl rfl
  | openInfo => exact Or.inl rfl
  | closeInfo => exact Or.inl rfl

theorem unarmed_of_core (s s' : State) (h : evoCore s' = evoCore s) (hi : Unarmed s) :
    Unarmed s' := by
  simp only [evoCore, Prod.mk.injEq] at h
  obtain ⟨h1, _, h3, h4, _, _⟩ := h
  unfold Unarmed at hi ⊢
  rw [h1, h3, h4]
  exact hi

/-- The effect while onboarding is showing, with no timer pending: the
tracker flag is left as it is and no timer is armed. -/
theorem evolutionEffect_hidden (s : State) (hw : s.showWelcome = true)
    (ht : s.evolutionTimer = none) :
    (evolutionEffect s).evolutionEligible = s.evolutionEligible
      ∧ (evolutionEffect s).evolutionTimer = none := by
  obtain ⟨c1, c2, _, _⟩ := evolutionEffectCleanup_fields s
  have ct : (evolutionEffectCleanup s).evolutionTimer = none := by
    unfold evolutionEffectCleanup
    split
    · rfl
    · exact ht
  have hb : evolutionEffectBody (evolutionEffectCleanup s)
      = { evolutionEffectCleanup s with evolutionCleanup := false } := by
    simp [evolutionEffectBody, c1, hw]
  rw [evolutionEffect, hb]
  exact ⟨c2, ct⟩

/-- From a state with the tracker not eligible and no timer pending: an event
that leaves the stats not all above 80 leaves the tracker so; an event that
takes the stats from not all above 80 to all above 80 makes the tracker
eligible with a timer armed for `EVOLUTION_TIME` from the time of the event
when onboarding is not showing, and leaves the tracker as it is, with no
timer, when onboarding is showing. -/
theorem unarmed_step (s : State) (e : Event) (h : Unarmed s) :
    (allHigh (step s e).stats = false → Unarmed (step s e))
      ∧ (allHigh s.stats = false → allHigh (step s e).stats = true →
          (s.showWelcome = false →
            (step s e).evolutionEligible = true
              ∧ (step s e).evolutionTimer = some ((step s e).now + EVOLUTION_TIME)
              ∧ (step s e).evolutionStart = some (step s e).now
              ∧ (step s e).stats.evolved = false)
          ∧ (s.showWelcome = true →
            (step s e).evolutionEligible = false ∧ (step s e).evolutionTimer = none
              ∧ (step s e).stats.evolved = false)) := by
  obtain ⟨hev, hel, ht⟩ := h
  rcases step_cases s e (fun _ => ht) with hq | ⟨X, hX, x2, x3, x4, x5, x6⟩
  · have hst : (step s e).stats = s.stats := congrArg Prod.fst hq
    refine ⟨fun _ => unarmed_of_core s _ hq ⟨hev, hel, ht⟩, fun hl hh => ?_⟩
    rw [hst, hl] at hh
    exact absurd hh (by simp)
  · rw [hX]
    constructor
    · intro hl
      rw [evolutionEffect_stats] at hl
      cases hw : X.showWelcome with
      | true =>
        obtain ⟨a1, a2⟩ := evolutionEffect_hidden X hw (x4.trans ht)
        exact ⟨by rw [evolutionEffect_stats]; exact x2.trans hev, a1.trans (x3.trans hel), a2⟩
      | false =>
        obtain ⟨_, b2, b3, b4⟩ := (evolutionEffect_low X hw (x2.trans hev) hl).1
        exact ⟨b2, b3, b4⟩
    · intro hl hh
      rw [evolutionEffect_stats] at hh
      have hsw : X.showWelcome = s.showWelcome := by
        rcases x6 with h6 | h6
        · exact h6
        · rw [h6, hl] at hh
          exact absurd hh (by simp)
      constructor
      · intro hw
        obtain ⟨a1, a2, a3⟩ :=
          evolutionEffect_arm X (hsw.trans hw) (x2.trans hev) hh (x3.trans hel)
        rw [evolutionEffect_now, evolutionEffect_stats]
        exact ⟨a1, a2, a3, x2.trans hev⟩
      · intro hw
        obtain ⟨a1, a2⟩ := evolutionEffect_hidden X (hsw.trans hw) (x4.trans ht)
        rw [evolutionEffect_stats]
        exact ⟨a1.trans (x3.trans hel), a2, x2.trans hev⟩

theorem unarmed_run (s : State) (mid : List Event) (h : Unarmed s)
    (hlow : ∀ pre ∈ mid.inits, allHigh (run s pre).stats = false) :
    ∀ pre ∈ mid.inits, Unarmed (run s pre) := by
  induction mid generalizing s with
  | nil =>
    intro pre hpre
    simp only [List.inits, List.mem_singleton] at hpre
    subst hpre
    exact h
  | cons ev mid ih =>
    intro pre hpre
    rw [List.mem_inits, List.prefix_cons_iff] at hpre
    rcases hpre with rfl | ⟨t, rfl, ht⟩
    · exact h
    · have h1 : Unarmed (step s ev) :=
        (unarmed_step s ev h).1 (hlow [ev] (by rw [List.mem_inits]; exact ⟨mid, rfl⟩))
      rw [run_cons]
      refine ih (step s ev) h1 ?_ t (by rw [List.mem_inits]; exact ht)
      intro pre' hpre'
      rw [List.mem_inits] at hpre'
      have := hlow (ev :: pre') (by
        rw [List.mem_inits, List.prefix_cons_iff]
        exact Or.inr ⟨pre', rfl, hpre'⟩)
      rw [run_cons] at this
      exact this

/-- Claim C7 (amended).  Evolution reset without carryover: when the
simulation runs with the tracker `Eligible` and its timer pending, and an
event leaves the stats not all above 80 (a stat mutation made one of them at
most 80), then after that event the timer is cancelled and the tracker is
`Ineligible`, so that however much time passes from there `evolved` stays
false; the tracker stays not eligible, with no timer, as long as the events
that follow leave the stats not all above 80; and the first event after which
all three stats are above 80 again leaves the tracker `Eligible` with a timer
armed for the full `EVOLUTION_TIME` from the time of that event when
onboarding is not showing then, whereas when onboarding is showing then (the
settings were reopened) the effect returns at once: the tracker stays not
eligible and no timer is armed. -/
theorem evolution_reset_no_carryover (s : State) (d : Nat) (e : Event) (mid : List Event)
    (e2 : Event) (hs : EligiblePending s d)
    (hlow : allHigh (step s e).stats = false)
    (hmidlow : ∀ pre ∈ mid.inits, allHigh (run (step s e) pre).stats = false)
    (hhigh : allHigh (step (run (step s e) mid) e2).stats = true) :
    ((step s e).evolutionTimer = none ∧ Ineligible (step s e)
        ∧ (step s e).evolutionStart = none)
      ∧ (∀ dt, (advance dt (step s e)).stats.evolved = false)
      ∧ (∀ pre ∈ mid.inits, Unarmed (run (step s e) pre))
      ∧ ((run (step s e) mid).showWelcome = false →
          (step (run (step s e) mid) e2).evolutionEligible = true
            ∧ (step (run (step s e) mid) e2).evolutionTimer
                = some ((step (run (step s e) mid) e2).now + EVOLUTION_TIME)
            ∧ (step (run (step s e) mid) e2).evolutionStart
                = some (step (run (step s e) mid) e2).now
            ∧ (step (run (step s e) mid) e2).stats.evolved = false)
      ∧ ((run (step s e) mid).showWelcome = true →
          (step (run (step s e) mid) e2).evolutionEligible = false
            ∧ (step (run (step s e) mid) e2).evolutionTimer = none
            ∧ (step (run (step s e) mid) e2).stats.evolved = false) := by
  obtain ⟨hw, hev, hh, hel, ht⟩ := hs
  -- the first event resets the tracker
  have h1 : Ineligible (step s e) ∧ (step s e).evolutionStart = none := by
    by_cases hadv : ∃ dt, e = .advance dt
    · obtain ⟨dt, rfl⟩ := hadv
      simp only [step, advance_allHigh, hh] at hlow
      exact absurd hlow (by simp)
    · rcases step_cases s e (fun h => absurd h hadv) with hq | ⟨X, hX, x2, x3, x4, x5, x6⟩
      · have hst : (step s e).stats = s.stats := congrArg Prod.fst hq
        rw [hst, hh] at hlow
        exact absurd hlow (by simp)
      · rw [hX, evolutionEffect_stats] at hlow
        have hsw : X.showWelcome = s.showWelcome := by
          rcases x6 with h6 | h6
          · exact h6
          · rw [h6, hh] at hlow
            exact absurd hlow (by simp)
        rw [hX]
        exact evolutionEffect_low X (hsw.trans hw) (x2.trans hev) hlow
  have hu : Unarmed (step s e) := ⟨h1.1.2.1, h1.1.2.2.1, h1.1.2.2.2⟩
  have hmidU := unarmed_run (step s e) mid hu hmidlow
  have hlast : mid ∈ mid.inits := by rw [List.mem_inits]
  have hfin := (unarmed_step _ e2 (hmidU mid hlast)).2 (hmidlow mid hlast) hhigh
  refine ⟨⟨h1.1.2.2.2, h1.1, h1.2⟩, fun dt => ?_, hmidU, hfin.1, hfin.2⟩
  have hc := advance_core_of_no_timer dt (step s e) h1.1.2.2.2
  have hst : (advance dt (step s e)).stats = (step s e).stats := congrArg Prod.fst hc
  rw [hst]
  exact h1.1.2.1

/-- Witness for C7 (amended).  At 110 s all three stats are above 80 (100,
100, 83) and the evolution timer armed at 101 s is pending.  The decay tick
takes happiness to 79; two seconds later, onboarding not showing, a play
takes it to 97. -/
theorem evolution_reset_no_carryover_witness :
    EligiblePending pendingState 161000
      ∧ (step pendingState .decayTick).evolutionTimer = none
      ∧ Ineligible (step pendingState .decayTick)
      ∧ (∀ dt, (advance dt (step pendingState .decayTick)).stats.evolved = false)
      ∧ (step (run (step pendingState .decayTick) [.advance 2000]) .play).now = 112000
      ∧ (step (run (step pendingState .decayTick) [.advance 2000]) .play).evolutionEligible = true
      ∧ (step (run (step pendingState .decayTick) [.advance 2000]) .play).evolutionTimer
          = some ((step (run (step pendingState .decayTick) [.advance 2000]) .play).now
              + EVOLUTION_TIME) :=
  have hp : EligiblePending pendingState 161000 := by
    refine ⟨?_, ?_, ?_, ?_, ?_⟩ <;> decide
  have h := evolution_reset_no_carryover pendingState 161000 .decayTick [.advance 2000] .play
    hp (by decide) (by decide) (by decide)
  ⟨hp, h.1.1, h.1.2.1, h.2.1, by decide, (h.2.2.2.1 (by decide)).1,
    (h.2.2.2.1 (by decide)).2.1⟩

/-- Counterexample to C7 as stated.  At 110 s the tracker is `Eligible` with
its timer pending; the decay tick takes happiness to 79 and resets the
tracker; the settings are reopened; a play, on the button that stays reachable
under the dialog, takes happiness to 97.  All three stats are above 80 again,
but the tracker is not eligible and no timer is armed. -/
theorem evolution_reset_no_carryover_counterexample :
    EligiblePending pendingState 161000
      ∧ allHigh (step pendingState .decayTick).stats = false
      ∧ allHigh (run (step pendingState .decayTick) [.openSettings]).stats = false
      ∧ (run (step pendingState .decayTick) [.openSettings]).showWelcome = true
      ∧ allHigh (run (step pendingState .decayTick) [.openSettings, .play]).stats = true
      ∧ (run (step pendingState .decayTick) [.openSettings, .play]).evolutionEligible = false
      ∧ (run (step pendingState .decayTick) [.openSettings, .play]).evolutionTimer = none := by
  refine ⟨⟨?_, ?_, ?_, ?_, ?_⟩, ?_, ?_, ?_, ?_, ?_, ?_⟩ <;> decide

/-- Claim C1, evaluated on two runs the code fails on.  First run: a first
visit, onboarding completed at time 0, then 61 seconds during which hunger,
energy and happiness stay above 80 after every event; `evolved` is false
throughout and at the end (the effect that ran at mount marked the tracker
eligible, so no timer is armed after onboarding).  Second run: at 101 s the
evolution timer is armed for 161 s; during the next 61 seconds all three
stats stay above 80 after every event, yet at 162 s `evolved` is false and no
timer is pending: the first stat update cancelled the timer in the clean-up
of the effect and, the tracker being eligible already, none was armed again.
Left undisturbed, the same timer does set `evolved`. -/
theorem evolution_after_sustained_high_stats_fails :
    ((run firstVisit (steadyEvents.take 2)).showWelcome = false
        ∧ (run firstVisit (steadyEvents.take 2)).now = 0
        ∧ (∀ pre ∈ steadyEvents.inits, allHigh (run firstVisit pre).stats = true)
        ∧ (∀ pre ∈ steadyEvents.inits, (run firstVisit pre).stats.evolved = false)
        ∧ (run firstVisit steadyEvents).now = 61000
        ∧ (run firstVisit steadyEvents).stats.evolved = false)
      ∧ (armedState.showWelcome = false ∧ armedState.stats.evolved = false
        ∧ armedState.now = 101000 ∧ armedState.evolutionTimer = some 161000
        ∧ (∀ pre ∈ careEvents.inits, allHigh (run armedState pre).stats = true)
        ∧ (∀ pre ∈ careEvents.inits, (run armedState pre).stats.evolved = false)
        ∧ (run armedState careEvents).now = 162000
        ∧ (run armedState careEvents).evolutionTimer = none
        ∧ (run armedState careEvents).stats.evolved = false)
      ∧ (advance 60000 armedState).stats.evolved = true := by
  refine ⟨⟨?_, ?_, ?_, ?_, ?_, ?_⟩, ⟨?_, ?_, ?_, ?_, ?_, ?_, ?_, ?_, ?_⟩, ?_⟩ <;> decide

/-! ## The startup load -/

theorem applyLoaded_stats_none (savedName savedAvatar : Option String) (s : State) :
    (applyLoaded savedName none savedAvatar s).stats = s.stats := by
  unfold applyLoaded
  dsimp only
  split_ifs <;> rfl

theorem loadedEffects_stats (old : State) (b : Bool) (s : State) :
    (loadedEffects old b s).stats = s.stats := by
  unfold loadedEffects
  dsimp only
  have hw : (welcomeEffects old.showWelcome s).stats = s.stats := by
    unfold welcomeEffects intervalEffects
    split <;> rfl
  split
  · rw [evolutionEffect_stats, hw]
  · exact hw

/-- Without loaded stats the mounted component has the default stats. -/
theorem mount_stats_of_none (jsonParse : String → Except String Stats)
    (savedName savedStats savedAvatar : Option String) (now : Nat)
    (h : loadStats jsonParse savedStats = .ok none) :
    LoadsDefaults jsonParse savedName savedStats savedAvatar now := by
  unfold LoadsDefaults mount
  dsimp only
  rw [h]
  refine ⟨_, rfl, ?_⟩
  rw [loadedEffects_stats, applyLoaded_stats_none, evolutionEffectBody_stats]
  rfl

/-- A present value on which `JSON.parse` throws makes mounting fail with that
exception. -/
theorem mount_of_parse_error (jsonParse : String → Except String Stats)
    (savedName savedAvatar : Option String) (v e : String) (now : Nat)
    (hv : v ≠ "") (hbad : jsonParse v = .error e) :
    mount jsonParse savedName (some v) savedAvatar now = .error e := by
  have hl : loadStats jsonParse (some v) = .error e := by
    simp [loadStats, hv, hbad, Except.map]
  unfold mount
  dsimp only
  rw [hl]

/-- Claim C11 (amended).  Malformed persisted stats: for every persisted
`petStats` value that is present (not empty) and on which `JSON.parse`
throws, the startup load fails with that exception, so that it does not leave
the stats at the defaults; when the value is absent, or empty, the load does
not fail and the stats are the defaults (hunger = energy = happiness = 100,
evolved = false). -/
theorem malformed_stats_load_throws (jsonParse : String → Except String Stats)
    (savedName savedAvatar : Option String) (v e : String) (now : Nat)
    (hv : v ≠ "") (hbad : jsonParse v = .error e) :
    mount jsonParse savedName (some v) savedAvatar now = .error e
      ∧ ¬ LoadsDefaults jsonParse savedName (some v) savedAvatar now
      ∧ LoadsDefaults jsonParse savedName none savedAvatar now
      ∧ LoadsDefaults jsonParse savedName (some "") savedAvatar now
      ∧ (DEFAULT_STATS.hunger = 100 ∧ DEFAULT_STATS.energy = 100
        ∧ DEFAULT_STATS.happiness = 100 ∧ DEFAULT_STATS.evolved = false) := by
  have hm := mount_of_parse_error jsonParse savedName savedAvatar v e now hv hbad
  refine ⟨hm, ?_, mount_stats_of_none _ _ _ _ _ rfl, mount_stats_of_none _ _ _ _ _ rfl,
    rfl, rfl, rfl, rfl⟩
  rintro ⟨s, hs, _⟩
  rw [hm] at hs
  exact absurd hs (by simp)

/-- Witness for C11 (amended): a returning user whose persisted stats are the
single character `\x7b`. -/
theorem malformed_stats_load_throws_witness :
    ("\x7b" : String) ≠ "" ∧ sampleJsonParse "\x7b" = .error "SyntaxError"
      ∧ mount sampleJsonParse (some "Rex") (some "\x7b") (some "cat") 0 = .error "SyntaxError"
      ∧ LoadsDefaults sampleJsonParse (some "Rex") none (some "cat") 0 :=
  have h := malformed_stats_load_throws sampleJsonParse (some "Rex") (some "cat") "\x7b"
    "SyntaxError" 0 (by decide) rfl
  ⟨by decide, rfl, h.1, h.2.2.1⟩

/-- Counterexample to C11 as stated: the persisted name is `Rex`, the
persisted avatar `cat`, and the persisted stats are the text `not json`, which
is present and on which parsing throws.  The startup load fails with the
exception instead of leaving the stats at the defaults, unlike the load with
the stats absent, and unlike the load of the serialised default stats. -/
theorem malformed_stats_load_counterexample :
    truthy (some "not json") = true
      ∧ sampleJsonParse "not json" = .error "SyntaxError"
      ∧ mount sampleJsonParse (some "Rex") (some "not json") (some "cat") 0
          = .error "SyntaxError"
      ∧ ¬ LoadsDefaults sampleJsonParse (some "Rex") (some "not json") (some "cat") 0
      ∧ LoadsDefaults sampleJsonParse (some "Rex") none (some "cat") 0
      ∧ LoadsDefaults sampleJsonParse (some "Rex")
          (some "\x7b\"hunger\":100,\"energy\":100,\"happiness\":100,\"evolved\":false,\"avatar\":\"dog\"\x7d")
          (some "cat") 0 := by
  have hm : mount sampleJsonParse (some "Rex") (some "not json") (some "cat") 0
      = .error "SyntaxError" :=
    mount_of_parse_error sampleJsonParse _ _ "not json" "SyntaxError" 0 (by decide) rfl
  refine ⟨by decide, rfl, hm, ?_, mount_stats_of_none _ _ _ _ _ rfl, ⟨_, rfl, ?_⟩⟩
  · rintro ⟨s, hs, _⟩
    rw [hm] at hs
    exact absurd hs (by simp)
  · decide

end PetApp
